import Mathlib

/-!
# Hermes Conduit — shallow embedding and verification

This file embeds the core of the Hermes scraping engine in Lean 4 and proves
properties of its phase machine, signal emitter, pipeline persistence,
obstruction heuristics and AI trust boundary.

Source files embedded:
- `server/conduit/phases.py`   — `Phase`, `VALID_TRANSITIONS`, `TERMINAL_PHASES`
- `server/conduit/engine.py`   — `Conduit` (`_transition`, `_fail`, the run loop
  and the per-phase handlers)
- `server/signals/emitter.py`  — `SignalEmitter.emit`
- `server/signals/types.py`    — `SignalType`, `Signal`
- `server/browser/obstruction.py` — `detect_obstruction` and the indicator lists
- `server/ai_engine/engine.py` — `validate_function_call`,
  `generate_navigation_plan` (cap and prior-attempt formatting)
- `server/pipeline/manager.py` — `PipelineManager.persist`

Modelling conventions: Python floats that only ever hold small decimal
constants (confidences) are embedded as `ℚ`; dictionaries of string keys are
association lists; time is a natural-number clock advanced by the environment;
browser and model responses are drawn from an explicit `Env` record so that
theorems quantify over every possible collaborator behaviour.
-/

namespace Hermes

/-! ## Phases (server/conduit/phases.py) -/

/-- `Phase` enum from `server/conduit/phases.py`. -/
inductive Phase where
  | INIT | NAVIGATE | ASSESS | OBSTRUCT | AI_REASON | EXECUTE_PLAN
  | EXTRACT | VALIDATE | REPAIR | PERSIST | COMPLETE | FAIL
deriving DecidableEq, Repr

open Phase

/-- String value of a phase (`Phase(str, Enum)` `.value`). -/
def Phase.value : Phase → String
  | .INIT => "INIT" | .NAVIGATE => "NAVIGATE" | .ASSESS => "ASSESS"
  | .OBSTRUCT => "OBSTRUCT" | .AI_REASON => "AI_REASON"
  | .EXECUTE_PLAN => "EXECUTE_PLAN" | .EXTRACT => "EXTRACT"
  | .VALIDATE => "VALIDATE" | .REPAIR => "REPAIR" | .PERSIST => "PERSIST"
  | .COMPLETE => "COMPLETE" | .FAIL => "FAIL"

/-- `VALID_TRANSITIONS` from `server/conduit/phases.py`: the set of phases each
phase may transition to, given as a list. -/
def VALID_TRANSITIONS : Phase → List Phase
  | .INIT => [.NAVIGATE, .FAIL]
  | .NAVIGATE => [.ASSESS, .FAIL]
  | .ASSESS => [.EXTRACT, .OBSTRUCT, .FAIL]
  | .OBSTRUCT => [.AI_REASON, .NAVIGATE, .FAIL]
  | .AI_REASON => [.EXECUTE_PLAN, .FAIL]
  | .EXECUTE_PLAN => [.ASSESS, .FAIL]
  | .EXTRACT => [.VALIDATE, .FAIL]
  | .VALIDATE => [.PERSIST, .REPAIR, .FAIL]
  | .REPAIR => [.VALIDATE, .FAIL]
  | .PERSIST => [.COMPLETE, .FAIL]
  | .COMPLETE => []
  | .FAIL => []

/-- `TERMINAL_PHASES = {COMPLETE, FAIL}`. -/
def TERMINAL_PHASES : List Phase := [.COMPLETE, .FAIL]

/-! ## Signals (server/signals/types.py, server/signals/emitter.py) -/

/-- `SignalType` enum from `server/signals/types.py`. -/
inductive SignalType where
  | PHASE_TRANSITION | OBSTRUCTION_DETECTED | AI_INVOKED | AI_RESPONDED
  | AI_REJECTED | ACTION_EXECUTED | EXTRACTION_COMPLETE | RETRY_ATTEMPT
  | RUN_COMPLETE | RUN_FAILED
deriving DecidableEq, Repr

/-- Signal payloads. The Python payload is a `dict[str, Any]`; we embed one
constructor per emission site of the Conduit, carrying the fields the code
puts in the dictionary at that site. -/
inductive Payload where
  /-- `{"from_phase": …, "to_phase": …}` plus context (emit_phase_transition). -/
  | phaseTransition (from_phase to_phase : Phase)
  /-- `{"failure_reason": …, "phase_at_failure": …, "attempts_made": …}`. -/
  | runFailed (failure_reason : String) (phase_at_failure : Phase) (attempts_made : Nat)
  /-- `{"total_records": …, "ai_calls_count": …}` (duration elided). -/
  | runComplete (total_records : Nat) (ai_calls_count : Nat)
  /-- `{"attempt_number": …, "max_attempts": …, "reason": …}`. -/
  | retryAttempt (attempt_number max_attempts : Nat) (reason : String)
  /-- `{"obstruction_type": …, "confidence": …}` (dom_hash/selector elided). -/
  | obstructionDetected (obstruction_type : String) (confidence : ℚ)
  /-- `{"request_type": …, "dom_size": …}`. -/
  | aiInvoked (request_type : String) (dom_size : Nat)
  /-- `{"response_type": …, "function_calls_count": …, "confidence": …}`. -/
  | aiResponded (response_type : String) (function_calls_count : Nat) (confidence : ℚ)
  /-- `{"reason": …, "rejected_action": …, "phase_context": …}`. -/
  | aiRejected (reason rejected_action phase_context : String)
  /-- `{"action_type": …, "selector": …, "result": …}`. -/
  | actionExecuted (action_type selector result : String)
  /-- `{"record_count": …, "flagged_fields": …}` (confidence_avg elided). -/
  | extractionComplete (record_count flagged_fields : Nat)
deriving DecidableEq, Repr

/-- `Signal` from `server/signals/types.py` (timestamp and run_id elided:
they are constant within the run this file reasons about). -/
structure Signal where
  sequence : Nat
  signal_type : SignalType
  payload : Payload
deriving DecidableEq, Repr

/-- `SignalEmitter` state from `server/signals/emitter.py`: the `_sequence`
counter and the in-memory `_signals` list. -/
structure SignalEmitter where
  sequence : Nat
  signals : List Signal
deriving DecidableEq, Repr

/-- A fresh emitter: `_sequence = 0`, no signals. -/
def SignalEmitter.init : SignalEmitter := ⟨0, []⟩

/-- `SignalEmitter.emit`: increments `_sequence`, builds the signal with that
sequence number, appends it to `_signals`, returns it. -/
def SignalEmitter.emit (e : SignalEmitter) (t : SignalType) (p : Payload) :
    SignalEmitter × Signal :=
  let s : Signal := ⟨e.sequence + 1, t, p⟩
  (⟨e.sequence + 1, e.signals ++ [s]⟩, s)

/-- Run a list of `emit` calls in order, returning the final emitter state. -/
def SignalEmitter.emitAll (e : SignalEmitter) : List (SignalType × Payload) → SignalEmitter
  | [] => e
  | (t, p) :: rest => SignalEmitter.emitAll (e.emit t p).1 rest

/-! ## Obstruction detection (server/browser/obstruction.py) -/

/-- `ObstructionType` enum. -/
inductive ObstructionType where
  | CONSENT_GATE | CONTENT_REVEAL | MULTI_CLICK_FLOW | DYNAMIC_LOAD
  | JS_ROUTING | BEHAVIORAL_PUZZLE | HARD_BLOCK | NONE
deriving DecidableEq, Repr

/-- `.value` of an obstruction type. -/
def ObstructionType.value : ObstructionType → String
  | .CONSENT_GATE => "CONSENT_GATE" | .CONTENT_REVEAL => "CONTENT_REVEAL"
  | .MULTI_CLICK_FLOW => "MULTI_CLICK_FLOW" | .DYNAMIC_LOAD => "DYNAMIC_LOAD"
  | .JS_ROUTING => "JS_ROUTING" | .BEHAVIORAL_PUZZLE => "BEHAVIORAL_PUZZLE"
  | .HARD_BLOCK => "HARD_BLOCK" | .NONE => "NONE"

/-- `ObstructionResult` dataclass. -/
structure ObstructionResult where
  obstruction_type : ObstructionType
  confidence : ℚ
  selector : Option String := none
  requires_ai : Bool := false
deriving DecidableEq, Repr

/-- `CONSENT_SELECTORS` list, verbatim. -/
def CONSENT_SELECTORS : List String :=
  [ "#onetrust-accept-btn-handler"
  , ".onetrust-accept-btn-handler"
  , "#CybotCookiebotDialogBodyLevelButtonLevelOptinAllowAll"
  , "[id*=\x22cookie\x22] [class*=\x22accept\x22]"
  , "[id*=\x22cookie\x22] [class*=\x22agree\x22]"
  , "[id*=\x22consent\x22] [class*=\x22accept\x22]"
  , "[id*=\x22consent\x22] [class*=\x22agree\x22]"
  , "[class*=\x22cookie-banner\x22] button"
  , "[class*=\x22cookie-consent\x22] button"
  , "[class*=\x22gdpr\x22] [class*=\x22accept\x22]"
  , "button[class*=\x22accept-cookie\x22]"
  , "button[class*=\x22cookie-accept\x22]"
  , "a[class*=\x22accept-cookie\x22]"
  , "[aria-label*=\x22accept\x22 i][aria-label*=\x22cookie\x22 i]"
  , "[aria-label*=\x22consent\x22 i]" ]

/-- `HARD_BLOCK_INDICATORS` list, verbatim. -/
def HARD_BLOCK_INDICATORS : List String :=
  [ "[class*=\x22captcha\x22]"
  , "[id*=\x22captcha\x22]"
  , "iframe[src*=\x22recaptcha\x22]"
  , "iframe[src*=\x22hcaptcha\x22]"
  , "[class*=\x22login-wall\x22]"
  , "[class*=\x22paywall\x22]"
  , "[id*=\x22login-gate\x22]" ]

/-- `CONTENT_REVEAL_SELECTORS` list, verbatim. -/
def CONTENT_REVEAL_SELECTORS : List String :=
  [ "[class*=\x22read-more\x22]"
  , "[class*=\x22show-more\x22]"
  , "[class*=\x22expand\x22]"
  , "button[class*=\x22accordion\x22]"
  , "[data-toggle=\x22collapse\x22]"
  , "details > summary" ]

/-- Python `str.strip(chars)` on a character list: drop characters of `chars`
from both ends. -/
def pyStrip (chars : List Char) (s : List Char) : List Char :=
  ((s.dropWhile (· ∈ chars)).reverse.dropWhile (· ∈ chars)).reverse

/-- Python `str.lower()` (ASCII case folding, which covers every selector and
indicator in the source). -/
def pyLower (s : String) : String :=
  String.mk (s.data.map Char.toLower)

/-- Python `str.strip()`: whitespace stripped from both ends. -/
def pyTrimWs (s : String) : String :=
  String.mk (pyStrip [' ', '\t', '\n', '\r'] s.data)

/-- The segment after the last occurrence of `sep` — Python
`split(sep)[-1]` — computed from the reversed list. -/
def lastSegAux (sepRev : List Char) : List Char → List Char
  | [] => []
  | c :: cs => if sepRev.isPrefixOf (c :: cs) then [] else c :: lastSegAux sepRev cs

/-- Python `s.split(sep)[-1]` on character lists. -/
def lastSegment (sep l : List Char) : List Char :=
  (lastSegAux sep.reverse l.reverse).reverse

/-- `_selector_to_html_pattern` from `server/browser/obstruction.py`:
`#id → id="id"`, `.cls → cls`, attribute selectors →
`strip("[]").split("*=")[-1].strip('"').strip("'")`. -/
def selectorToHtmlPattern (selector : String) : String :=
  let s := pyTrimWs (pyLower selector)
  match s.data with
  | '#' :: rest => String.mk ("id=\x22".data ++ rest ++ ['\x22'])
  | '.' :: rest => String.mk rest
  | l =>
    let stripped := pyStrip ['[', ']'] l
    let last := lastSegment "*=".data stripped
    String.mk (pyStrip ['\''] (pyStrip ['\x22'] last))

/-- Does `n` occur as a contiguous run inside the character list? -/
def substrAux (n : List Char) : List Char → Bool
  | [] => n.isEmpty
  | c :: cs => n.isPrefixOf (c :: cs) || substrAux n cs

/-- Python substring test `needle in haystack` (contiguous substring). -/
def containsSub (haystack needle : String) : Bool :=
  substrAux needle.toList haystack.toList

/-- `detect_obstruction` from `server/browser/obstruction.py`. Each of the
three scan loops returns on its first match; the hard-block loop's result does
not depend on which indicator matched, so it is an `any`, and the other two
keep their first matching selector via `find?`. -/
def detect_obstruction (html : String) : ObstructionResult :=
  let htmlLower := pyLower html
  if HARD_BLOCK_INDICATORS.any
      (fun ind => containsSub htmlLower (selectorToHtmlPattern ind)) then
    ⟨.HARD_BLOCK, 8/10, none, false⟩
  else
    match CONSENT_SELECTORS.find?
        (fun sel => containsSub htmlLower (selectorToHtmlPattern sel)) with
    | some sel => ⟨.CONSENT_GATE, 7/10, some sel, false⟩
    | none =>
      match CONTENT_REVEAL_SELECTORS.find?
          (fun sel => containsSub htmlLower (selectorToHtmlPattern sel)) with
      | some sel => ⟨.CONTENT_REVEAL, 6/10, some sel, true⟩
      | none => ⟨.NONE, 1, none, false⟩

/-! ## AI Engine (server/ai_engine/engine.py) -/

/-- `FunctionCall` model. `parameters: dict[str, Any]` is embedded as an
association list of string-valued parameters (every parameter the Conduit
reads is compared or passed on as an opaque value). -/
structure FunctionCall where
  function : String
  parameters : List (String × String) := []
deriving DecidableEq, Repr

/-- Python `dict.get(k)`: first binding of `k`, if any. -/
def pget (ps : List (String × String)) (k : String) : Option String :=
  (ps.find? (fun kv => kv.1 = k)).map (fun kv => kv.2)

/-- `ALLOWED_NAVIGATION_FUNCTIONS`. -/
def ALLOWED_NAVIGATION_FUNCTIONS : List String :=
  ["click", "scroll", "fill_form", "hover", "press_key", "wait_for", "navigate_url"]

/-- `ALLOWED_ASSESSMENT_FUNCTIONS`. -/
def ALLOWED_ASSESSMENT_FUNCTIONS : List String :=
  ["classify_page", "classify_obstruction", "identify_content_region", "assess_completeness"]

/-- `ALLOWED_EXTRACTION_FUNCTIONS`. -/
def ALLOWED_EXTRACTION_FUNCTIONS : List String :=
  ["extract_structured", "repair_extraction", "deduplicate", "convert_prose_to_fields"]

/-- `ALL_ALLOWED_FUNCTIONS`: union of the three allowlists. -/
def ALL_ALLOWED_FUNCTIONS : List String :=
  ALLOWED_NAVIGATION_FUNCTIONS ++ ALLOWED_ASSESSMENT_FUNCTIONS ++ ALLOWED_EXTRACTION_FUNCTIONS

/-- `MAX_FUNCTION_CALLS_PER_INVOCATION = 20`. -/
def MAX_FUNCTION_CALLS_PER_INVOCATION : Nat := 20

/-- `validate_function_call` from `server/ai_engine/engine.py`: returns
`none` when valid, or an error string. The `allow_cross_origin` argument is
accepted and, as in the source, not used (the cross-origin check is done by
the Conduit). -/
def validate_function_call (call : FunctionCall) (_allow_cross_origin : Bool := false) :
    Option String :=
  if ¬ ALL_ALLOWED_FUNCTIONS.contains call.function then
    some ("Unknown function: " ++ call.function)
  else if call.function = "click" ∧ pget call.parameters "selector" = none then
    some "click requires \x27selector\x27 parameter"
  else if call.function = "scroll" ∧
      ¬ (pget call.parameters "direction" = some "up" ∨
         pget call.parameters "direction" = some "down") then
    some ("scroll direction must be \x27up\x27 or \x27down\x27, got \x27" ++
      (pget call.parameters "direction").getD "None" ++ "\x27")
  else if call.function = "fill_form" ∧
      (pget call.parameters "selector" = none ∨ pget call.parameters "value" = none) then
    some "fill_form requires \x27selector\x27 and \x27value\x27 parameters"
  else if call.function = "navigate_url" ∧ (pget call.parameters "url").getD "" = "" then
    some "navigate_url requires a non-empty \x27url\x27 parameter"
  else
    none

/-- `NavigationPlan` model (estimated_steps elided; unused by the Conduit). -/
structure NavigationPlan where
  actions : List FunctionCall
  confidence : ℚ := 1/2
deriving DecidableEq, Repr

/-- `AttemptRecord` model from `server/ai_engine/engine.py`. -/
structure AttemptRecord where
  phase : String
  action : String
  detail : String
  outcome : String
  obstruction_type : String := ""
  dom_hash : String := ""
deriving DecidableEq, Repr

/-- A Python value passed as one entry of `prior_attempts`. The Conduit passes
plain strings (`_prior_ai_attempts: list[str]`), while the engine expects
`AttemptRecord` objects; dynamic attribute access distinguishes them. -/
inductive PyAttempt where
  | pystr (s : String)
  | record (r : AttemptRecord)
deriving DecidableEq, Repr

/-- Dynamic attribute read `rec.<attr>` for the four attributes the
plan-generation loop reads. On a plain string it raises `AttributeError`. -/
def PyAttempt.getattr : PyAttempt → String → Except String String
  | .pystr _, a => .error ("AttributeError: \x27str\x27 object has no attribute \x27" ++ a ++ "\x27")
  | .record r, "phase" => .ok r.phase
  | .record r, "action" => .ok r.action
  | .record r, "detail" => .ok r.detail
  | .record r, "outcome" => .ok r.outcome
  | .record r, "obstruction_type" => .ok r.obstruction_type
  | .record _, a => .error ("AttributeError: \x27AttemptRecord\x27 object has no attribute \x27" ++ a ++ "\x27")

/-- The attempt-formatting loop of `generate_navigation_plan` (lines 419-441):
reads `phase`, `action`, `detail`, `outcome` (and `obstruction_type`) of every
prior attempt; any `AttributeError` escapes to the enclosing `try`. The built
prompt context is summarized as the list of read attribute values. -/
def formatPriorAttempts : List PyAttempt → Except String (List String)
  | [] => .ok []
  | rec :: rest => do
    let ph ← rec.getattr "phase"
    let ac ← rec.getattr "action"
    let de ← rec.getattr "detail"
    let ou ← rec.getattr "outcome"
    let ob ← rec.getattr "obstruction_type"
    let rest ← formatPriorAttempts rest
    .ok ([ph, ac, de, ou, ob] ++ rest)

/-- `generate_navigation_plan` from `server/ai_engine/engine.py`, with the
model transport abstracted: `rawActions`/`rawConfidence` are the decoded
`data["actions"]`/`data["confidence"]` of a successful model response. The
body mirrors the source: unavailable engine → empty plan; the `try` block
first formats `prior_attempts` (when truthy), then calls the model and
truncates the decoded actions at `MAX_FUNCTION_CALLS_PER_INVOCATION`; any
exception inside the `try` yields `NavigationPlan(actions=[], confidence=0.0)`. -/
def generate_navigation_plan (available : Bool)
    (prior_attempts : Option (List PyAttempt))
    (rawActions : List FunctionCall) (rawConfidence : ℚ) : NavigationPlan :=
  if ¬ available then ⟨[], 0⟩
  else
    let attempt : Except String NavigationPlan := do
      match prior_attempts with
      | some (rec :: rest) =>
        -- `if prior_attempts:` — truthy only for a non-empty list
        let _ ← formatPriorAttempts (rec :: rest)
      | _ => pure ()
      let actions :=
        if rawActions.length > MAX_FUNCTION_CALLS_PER_INVOCATION then
          rawActions.take MAX_FUNCTION_CALLS_PER_INVOCATION
        else rawActions
      .ok ⟨actions, rawConfidence⟩
    match attempt with
    | .ok plan => plan
    | .error _ => ⟨[], 0⟩

/-! ## Browser Layer surface (server/browser/layer.py) -/

/-- `ActionStatus` enum. -/
inductive ActionStatus where
  | SUCCESS | FAILURE | TIMEOUT
deriving DecidableEq, Repr

/-- `.value` of a status. -/
def ActionStatus.value : ActionStatus → String
  | .SUCCESS => "success" | .FAILURE => "failure" | .TIMEOUT => "timeout"

/-- One typed Browser Layer invocation, as issued by `_execute_action`. -/
inductive BrowserCall where
  | click (selector : String) (wait_after_ms : String)
  | scroll (direction : String) (amount : String)
  | fill_form (selector : String) (value : String)
  | hover (selector : String)
  | press_key (key : String)
  | wait_for (selector : String) (timeout_ms : String)
  | navigate (url : String)
deriving DecidableEq, Repr

/-- `urlparse(url).netloc` for the URLs `_execute_action` compares: the part
after `scheme://` (or a leading `//`) up to the first `/`, `?` or `#`; empty
when the URL has no network location. -/
def urlparseNetloc (url : String) : String :=
  -- the part after "scheme:" when the URL has a scheme
  let afterScheme : List Char :=
    if url.data.contains ':' then (url.data.dropWhile (fun c => c ≠ ':')).drop 1
    else url.data
  let rest : List Char :=
    if "//".data.isPrefixOf afterScheme ∧ url.data.contains ':' then afterScheme.drop 2
    else if "//".data.isPrefixOf url.data then url.data.drop 2
    else []
  String.mk (rest.takeWhile (fun c => c ≠ '/' ∧ c ≠ '?' ∧ c ≠ '#'))

/-- `_execute_action` from `server/conduit/engine.py`: dispatch one validated
action to the Browser Layer. `browser` is the Browser Layer oracle (its
typed contract: a status per call, never an exception). Returns the result
string and the list of Browser Layer calls performed; a missing required
parameter is a `KeyError` caught by the `except` → `"failure"` with no call. -/
def executeAction (browser : BrowserCall → ActionStatus)
    (allow_cross_origin : Bool) (target_url : String)
    (action : FunctionCall) : String × List BrowserCall :=
  let params := action.parameters
  if action.function = "click" then
    match pget params "selector" with
    | none => ("failure", [])
    | some sel =>
      let c := BrowserCall.click sel ((pget params "wait_after_ms").getD "1000")
      ((browser c).value, [c])
  else if action.function = "scroll" then
    let c := BrowserCall.scroll ((pget params "direction").getD "down")
      ((pget params "amount").getD "page")
    ((browser c).value, [c])
  else if action.function = "fill_form" then
    match pget params "selector", pget params "value" with
    | some sel, some v =>
      let c := BrowserCall.fill_form sel v
      ((browser c).value, [c])
    | _, _ => ("failure", [])
  else if action.function = "hover" then
    match pget params "selector" with
    | none => ("failure", [])
    | some sel =>
      let c := BrowserCall.hover sel
      ((browser c).value, [c])
  else if action.function = "press_key" then
    match pget params "key" with
    | none => ("failure", [])
    | some k =>
      let c := BrowserCall.press_key k
      ((browser c).value, [c])
  else if action.function = "wait_for" then
    match pget params "selector" with
    | none => ("failure", [])
    | some sel =>
      let c := BrowserCall.wait_for sel ((pget params "timeout_ms").getD "10000")
      ((browser c).value, [c])
  else if action.function = "navigate_url" then
    match pget params "url" with
    | none => ("failure", [])
    | some url =>
      if ¬ allow_cross_origin ∧
          urlparseNetloc url ≠ "" ∧ urlparseNetloc url ≠ urlparseNetloc target_url then
        ("failure", [])
      else
        let c := BrowserCall.navigate url
        ((browser c).value, [c])
  else
    ("failure", [])

/-! ## Pipeline Manager (server/pipeline/manager.py, server/pipeline/extraction.py) -/

/-- `FieldValue` (the `value`/`source_selector` payload is elided; only the
confidence is read by the Conduit). -/
structure FieldValue where
  confidence : ℚ
deriving DecidableEq, Repr

/-- `ExtractionRecord` (metadata and completeness elided; the Conduit branches
only on `fields` and `is_partial`). -/
structure ExtractionRecord where
  fields : List (String × FieldValue)
  is_partial : Bool := false
deriving DecidableEq, Repr

/-- In-memory `PipelineManager` state: count of raw captures and the
processed-records list (staging is never used by the Conduit). -/
structure Pipeline where
  rawCaptures : Nat := 0
  processed : List ExtractionRecord := []
deriving DecidableEq, Repr

/-- `add_processed_record`: gate — a record without fields is rejected. -/
def Pipeline.addProcessedRecord (p : Pipeline) (r : ExtractionRecord) : Pipeline × Bool :=
  if r.fields = [] then (p, false)
  else ({p with processed := p.processed ++ [r]}, true)

/-- File-system state seen by `PipelineManager.persist`: the contents of
`records.jsonl` (`target`) and of the sibling `.tmp` file, each `none` when
the file does not exist. The serialized JSON text of a record is elided: a
file's content is the list of records whose lines it holds. The
`metadata.json` write is a separate flag. -/
structure FS where
  target : Option (List ExtractionRecord) := none
  tmp : Option (List ExtractionRecord) := none
  metadataWritten : Bool := false
deriving DecidableEq, Repr

/-- `PipelineManager.persist` from `server/pipeline/manager.py`, with failure
injection: `failAt = some k` makes the k-th I/O step raise (steps `0..n-1`
write line k of the `.tmp` file, step `n` is the rename, step `n+1` is the
metadata write; larger values mean no failure). Mirrors the source:
empty batch returns 0 without touching files; the `try` writes every record
to the `.tmp` file and renames it over the target; `except` unlinks the
`.tmp` file if it exists and re-raises; the metadata write happens after the
rename, outside the `try`. -/
def Pipeline.persist (processed : List ExtractionRecord) (fs : FS)
    (failAt : Option Nat) : FS × Except String Nat :=
  let n := processed.length
  if processed = [] then (fs, .ok 0)
  else
    match failAt with
    | some k =>
      if k < n then
        -- failure while writing line k: `.tmp` holds a prefix, gets unlinked
        ({fs with tmp := none}, .error "write failed")
      else if k = n then
        -- `.tmp` fully written, rename fails; cleanup unlinks it
        ({fs with tmp := none}, .error "rename failed")
      else if k = n + 1 then
        -- rename succeeded (the `.tmp` file was moved over the target);
        -- the metadata write fails outside the try/except
        ({fs with target := some processed, tmp := none}, .error "metadata write failed")
      else
        ({fs with target := some processed, tmp := none, metadataWritten := true}, .ok n)
    | none =>
      ({fs with target := some processed, tmp := none, metadataWritten := true}, .ok n)

/-! ## The Conduit (server/conduit/engine.py) -/

/-- `HermesConfig` fields the Conduit reads (server/config/settings.py). -/
structure HermesConfig where
  target_url : String
  extraction_mode : String := "heuristic"
  heuristic_selectors : List (String × String) := []
  allow_cross_origin : Bool := false
  max_retries : Nat := 3
  global_timeout_s : Nat := 300
  min_confidence_threshold : ℚ := 1/2

/-- `DOMSnapshot` (title elided; unread by the Conduit). -/
structure DOMSnapshot where
  html : String
  url : String := ""
  dom_hash : String := ""
deriving DecidableEq, Repr

/-- The mutable state of a `Conduit` instance, plus the run's clock
(`time` = elapsed wall time, `tick` = loop iterations so far, both used to
index the environment). -/
structure ConduitState where
  phase : Phase := .INIT
  attempts : Nat := 0
  ai_calls : Nat := 0
  interaction_trace : List String := []
  prior_ai_attempts : List String := []
  pending_plan : List FunctionCall := []
  current_dom : Option DOMSnapshot := none
  emitter : SignalEmitter := .init
  pipeline : Pipeline := {}
  fs : FS := {}
  time : Nat := 0
  tick : Nat := 0
deriving Repr

/-- Behaviour of the Conduit's collaborators (Browser Layer, AI Engine model
responses, file system), indexed by the loop iteration that consumes them. -/
structure Env where
  /-- exception raised by `browser.start()`/AI init during INIT, if any -/
  browserStartFails : Option String := none
  /-- `AIEngine.is_available` after INIT (engine initialization outcome) -/
  aiInitOk : Bool := false
  /-- `browser.navigate(target_url)` status per iteration -/
  nav : Nat → ActionStatus := fun _ => .SUCCESS
  /-- the `detail` string of a failed navigation -/
  navDetail : Nat → String := fun _ => ""
  /-- `browser.capture_dom()` per iteration -/
  captureDom : Nat → Option DOMSnapshot := fun _ => none
  /-- Browser Layer oracle for click/scroll/… calls per iteration -/
  browser : Nat → BrowserCall → ActionStatus := fun _ _ => .SUCCESS
  /-- decoded `data["actions"]` of a navigation-plan model response -/
  aiRawActions : Nat → List FunctionCall := fun _ => []
  /-- decoded `data["confidence"]` of that response -/
  aiConfidence : Nat → ℚ := fun _ => 1/2
  /-- records produced by `_extract_ai` (post-conversion) per iteration -/
  aiExtractRecords : Nat → List ExtractionRecord := fun _ => []
  /-- records produced by `heuristic_extract` per iteration -/
  heuristicRecords : Nat → List ExtractionRecord := fun _ => []
  /-- `browser.page is None` during `_extract_heuristic` -/
  pageIsNone : Nat → Bool := fun _ => false
  /-- records produced by `repair_extraction` (post-conversion) per iteration -/
  repairRecords : Nat → List ExtractionRecord := fun _ => []
  /-- persist failure injection (see `Pipeline.persist`) per iteration -/
  persistFailAt : Nat → Option Nat := fun _ => none
  /-- wall-clock time consumed by one loop iteration -/
  dt : Nat → Nat := fun _ => 1

/-- `AIEngine.is_available` during the run: initialization is attempted only
when the extraction mode is `ai` or `hybrid` (`_phase_init`), and must have
succeeded. -/
def aiAvail (cfg : HermesConfig) (env : Env) : Bool :=
  env.aiInitOk && (cfg.extraction_mode = "ai" || cfg.extraction_mode = "hybrid")

/-- Emit one signal on the Conduit's emitter. -/
def emitSig (s : ConduitState) (t : SignalType) (p : Payload) : ConduitState :=
  {s with emitter := (s.emitter.emit t p).1}

/-- `Conduit._transition` from `server/conduit/engine.py`: guard against
`VALID_TRANSITIONS`, then update the phase and emit `PHASE_TRANSITION` with
the old and new phase. An invalid target raises `ConduitError` (returned as
`some message`) before any mutation or emission. -/
def Conduit.transition (s : ConduitState) (to_phase : Phase) :
    ConduitState × Option String :=
  if (VALID_TRANSITIONS s.phase).contains to_phase then
    let from_phase := s.phase
    (emitSig {s with phase := to_phase} .PHASE_TRANSITION
      (.phaseTransition from_phase to_phase), none)
  else
    (s, some ("Invalid transition: " ++ s.phase.value ++ " -> " ++ to_phase.value))

/-- `Conduit._fail`: a no-op on a terminal phase; otherwise set the phase to
FAIL directly and emit `RUN_FAILED` (not a `PHASE_TRANSITION`). -/
def Conduit.fail (s : ConduitState) (reason : String) : ConduitState :=
  if TERMINAL_PHASES.contains s.phase then s
  else
    let current_phase := s.phase
    emitSig {s with phase := .FAIL} .RUN_FAILED
      (.runFailed reason current_phase s.attempts)

/-- `_phase_init`: start the browser (and the AI engine when the mode wants
it); transition to NAVIGATE; any exception fails the run. -/
def phaseInit (env : Env) (s : ConduitState) : ConduitState :=
  match env.browserStartFails with
  | some e => Conduit.fail s ("Initialization failed: " ++ e)
  | none =>
    match Conduit.transition s .NAVIGATE with
    | (s', none) => s'
    | (s', some e) => Conduit.fail s' ("Initialization failed: " ++ e)

/-- `_phase_navigate`: on SUCCESS append to the trace and go to ASSESS; on
failure consume a retry (emitting `RETRY_ATTEMPT`, backing off) and stay in
NAVIGATE, or fail once retries are exhausted. -/
def phaseNavigate (cfg : HermesConfig) (env : Env) (s : ConduitState) :
    ConduitState × Option String :=
  match env.nav s.tick with
  | .SUCCESS =>
    let s := {s with interaction_trace :=
      s.interaction_trace ++ ["navigate:" ++ cfg.target_url]}
    Conduit.transition s .ASSESS
  | _ =>
    if s.attempts < cfg.max_retries then
      let s := {s with attempts := s.attempts + 1}
      let s := emitSig s .RETRY_ATTEMPT (.retryAttempt s.attempts cfg.max_retries
        ("Navigation failed: " ++ env.navDetail s.tick))
      (s, none)
    else
      (Conduit.fail s ("Navigation failed after " ++ toString s.attempts ++
        " attempts: " ++ env.navDetail s.tick), none)

/-- `_phase_assess`: capture and cache a DOM snapshot, detect obstructions,
and route to EXTRACT / OBSTRUCT / FAIL. -/
def phaseAssess (env : Env) (s : ConduitState) : ConduitState × Option String :=
  match env.captureDom s.tick with
  | none => (Conduit.fail s "Failed to capture DOM snapshot", none)
  | some dom =>
    let s := {s with current_dom := some dom}
    let ob := detect_obstruction dom.html
    if ob.obstruction_type = .NONE then
      Conduit.transition s .EXTRACT
    else if ob.obstruction_type = .HARD_BLOCK then
      let s := emitSig s .OBSTRUCTION_DETECTED
        (.obstructionDetected ob.obstruction_type.value ob.confidence)
      (Conduit.fail s ("Hard block detected: " ++ ob.obstruction_type.value), none)
    else
      let s := emitSig s .OBSTRUCTION_DETECTED
        (.obstructionDetected ob.obstruction_type.value ob.confidence)
      Conduit.transition s .OBSTRUCT

/-- `_phase_obstruct`: try a heuristic click when the detector gives a
selector and AI is not required; otherwise escalate to AI_REASON, retry
NAVIGATE within budget, or fail. -/
def phaseObstruct (cfg : HermesConfig) (env : Env) (s : ConduitState) :
    ConduitState × Option String :=
  match s.current_dom with
  | none => (Conduit.fail s "No DOM available for obstruction handling", none)
  | some dom =>
    let ob := detect_obstruction dom.html
    -- escalation shared by the fallthrough paths
    let escalate : ConduitState → ConduitState × Option String := fun s =>
      if aiAvail cfg env then
        Conduit.transition s .AI_REASON
      else if s.attempts < cfg.max_retries then
        let s := {s with attempts := s.attempts + 1}
        let s := emitSig s .RETRY_ATTEMPT (.retryAttempt s.attempts cfg.max_retries
          "Obstruction unresolvable without AI")
        Conduit.transition s .NAVIGATE
      else
        (Conduit.fail s "Obstruction unresolvable: AI not available and retries exhausted",
          none)
    match ob.selector with
    | some sel =>
      -- `if not obstruction.requires_ai and obstruction.selector:` (truthy string)
      if ¬ ob.requires_ai ∧ sel ≠ "" then
        let res := env.browser s.tick (.click sel "1000")
        let s := emitSig s .ACTION_EXECUTED (.actionExecuted "click" sel res.value)
        if res = .SUCCESS then
          let s := {s with interaction_trace := s.interaction_trace ++ ["click:" ++ sel],
                           attempts := 0}
          Conduit.transition s .NAVIGATE
        else escalate s
      else escalate s
    | none => escalate s

/-- The validation loop of `_phase_ai_reason` (engine.py lines 386-399):
walk the plan's actions in order; a rejected action emits `AI_REJECTED`, a
valid one joins `validated_actions`. Returns the state and the survivors. -/
def validateActions (cfg : HermesConfig) :
    List FunctionCall → ConduitState → ConduitState × List FunctionCall
  | [], s => (s, [])
  | action :: rest, s =>
    match validate_function_call action cfg.allow_cross_origin with
    | some error =>
      validateActions cfg rest
        (emitSig s .AI_REJECTED (.aiRejected error action.function "AI_REASON"))
    | none =>
      let out := validateActions cfg rest s
      (out.1, action :: out.2)

/-- `_phase_ai_reason`: emit `AI_INVOKED`, call `generate_navigation_plan`
with the accumulated prior attempts (`self._prior_ai_attempts or None`,
a list of plain strings), emit `AI_RESPONDED`; an empty plan records a
prior-attempt note and retries NAVIGATE or fails; otherwise each action is
validated against the allowlist (rejections emit `AI_REJECTED`), and the
survivors become the pending plan on the way to EXECUTE_PLAN. -/
def phaseAIReason (cfg : HermesConfig) (env : Env) (s : ConduitState) :
    ConduitState × Option String :=
  match s.current_dom with
  | none => (Conduit.fail s "No DOM available for AI reasoning", none)
  | some dom =>
    let s := emitSig s .AI_INVOKED (.aiInvoked "navigation_plan" dom.html.length)
    let plan := generate_navigation_plan (aiAvail cfg env)
      (if s.prior_ai_attempts = [] then none
       else some (s.prior_ai_attempts.map .pystr))
      (env.aiRawActions s.tick) (env.aiConfidence s.tick)
    let s := {s with ai_calls := s.ai_calls + 1}
    let s := emitSig s .AI_RESPONDED
      (.aiResponded "navigation_plan" plan.actions.length plan.confidence)
    if plan.actions = [] then
      let s := {s with prior_ai_attempts :=
        s.prior_ai_attempts ++ ["AI returned empty plan"]}
      if s.attempts < cfg.max_retries then
        let s := {s with attempts := s.attempts + 1}
        Conduit.transition s .NAVIGATE
      else
        (Conduit.fail s "AI returned empty navigation plan after retries", none)
    else
      let (s, validated) := validateActions cfg plan.actions s
      if validated = [] then
        let s := {s with prior_ai_attempts :=
          s.prior_ai_attempts ++ ["All AI actions were rejected by validation"]}
        (Conduit.fail s "All AI-generated actions rejected by allowlist validation", none)
      else
        let s := {s with pending_plan := validated}
        Conduit.transition s .EXECUTE_PLAN

/-- The action loop of `_phase_execute_plan`: execute each pending action via
`_execute_action`, emit `ACTION_EXECUTED`, and stop at the first non-success,
recording it in the prior attempts. -/
def execLoop (browser : BrowserCall → ActionStatus) (cfg : HermesConfig) :
    List FunctionCall → ConduitState → ConduitState
  | [], s => s
  | action :: rest, s =>
    let r := executeAction browser cfg.allow_cross_origin cfg.target_url action
    let s := emitSig s .ACTION_EXECUTED
      (.actionExecuted action.function ((pget action.parameters "selector").getD "") r.1)
    if r.1 ≠ "success" then
      {s with prior_ai_attempts := s.prior_ai_attempts ++
        ["Action " ++ action.function ++ " failed: " ++ r.1]}
    else
      execLoop browser cfg rest
        {s with interaction_trace := s.interaction_trace ++ [action.function]}

/-- `_phase_execute_plan`: run the pending plan (empty plan short-circuits),
then clear it, reset the attempt counter, and go back to ASSESS. -/
def phaseExecutePlan (cfg : HermesConfig) (env : Env) (s : ConduitState) :
    ConduitState × Option String :=
  if s.pending_plan = [] then
    Conduit.transition s .ASSESS
  else
    let s' := execLoop (env.browser s.tick) cfg s.pending_plan s
    Conduit.transition {s' with pending_plan := [], attempts := 0} .ASSESS

/-- `_extract_heuristic`: no-op when `browser.page` is gone; otherwise feed
every extracted record through the processed-stage gate. -/
def extractHeuristic (env : Env) (s : ConduitState) : ConduitState :=
  if env.pageIsNone s.tick then s
  else
    let p := (env.heuristicRecords s.tick).foldl
      (fun p r => (p.addProcessedRecord r).1) s.pipeline
    {s with pipeline := p}

/-- `_extract_ai`: emit `AI_INVOKED`/`AI_RESPONDED` around the model call and
feed the converted records through the processed-stage gate. -/
def extractAI (env : Env) (s : ConduitState) : ConduitState :=
  match s.current_dom with
  | none => s
  | some dom =>
    let s := emitSig s .AI_INVOKED (.aiInvoked "extraction" dom.html.length)
    let s := {s with ai_calls := s.ai_calls + 1}
    let s := emitSig s .AI_RESPONDED (.aiResponded "extraction" 0 0)
    let p := (env.aiExtractRecords s.tick).foldl
      (fun p r => (p.addProcessedRecord r).1) s.pipeline
    {s with pipeline := p}

/-- `_extract_hybrid`: heuristic first, then an additive AI pass when some
record is partial and AI is available. -/
def extractHybrid (cfg : HermesConfig) (env : Env) (s : ConduitState) : ConduitState :=
  let s := if cfg.heuristic_selectors ≠ [] then extractHeuristic env s else s
  let records := s.pipeline.processed
  if records ≠ [] ∧ records.any (fun r => r.is_partial) ∧ aiAvail cfg env then
    extractAI env s
  else s

/-- `_phase_extract`: ensure a DOM snapshot is cached (failing the run when a
fresh capture fails), record the raw capture, dispatch by extraction mode
with the source's fallback chain, then transition to VALIDATE. -/
def phaseExtract (cfg : HermesConfig) (env : Env) (s : ConduitState) :
    ConduitState × Option String :=
  let dom? := match s.current_dom with
    | some d => some d
    | none => env.captureDom s.tick
  match dom? with
  | none => (Conduit.fail s "Failed to capture DOM for extraction", none)
  | some dom =>
    let s := {s with current_dom := some dom,
                     pipeline := {s.pipeline with rawCaptures := s.pipeline.rawCaptures + 1}}
    if cfg.extraction_mode = "heuristic" ∧ cfg.heuristic_selectors ≠ [] then
      Conduit.transition (extractHeuristic env s) .VALIDATE
    else if cfg.extraction_mode = "ai" ∧ aiAvail cfg env then
      Conduit.transition (extractAI env s) .VALIDATE
    else if cfg.extraction_mode = "hybrid" then
      Conduit.transition (extractHybrid cfg env s) .VALIDATE
    else if cfg.heuristic_selectors ≠ [] then
      Conduit.transition (extractHeuristic env s) .VALIDATE
    else if aiAvail cfg env then
      Conduit.transition (extractAI env s) .VALIDATE
    else
      (Conduit.fail s "No extraction configuration: no selectors and AI unavailable", none)

/-- `_phase_validate`: zero records retries via REPAIR (or fails); a majority
of low-confidence fields retries via REPAIR within budget; otherwise emit
`EXTRACTION_COMPLETE` and move to PERSIST. -/
def phaseValidate (cfg : HermesConfig) (env : Env) (s : ConduitState) :
    ConduitState × Option String :=
  let records := s.pipeline.processed
  if records = [] then
    if s.attempts < cfg.max_retries then
      let s := {s with attempts := s.attempts + 1}
      let s := emitSig s .RETRY_ATTEMPT
        (.retryAttempt s.attempts cfg.max_retries "No records extracted")
      if aiAvail cfg env then
        Conduit.transition s .REPAIR
      else
        (Conduit.fail s "No records extracted and no AI available for repair", none)
    else
      (Conduit.fail s "No records extracted after maximum attempts", none)
  else
    let flagged : Nat := (records.map (fun r =>
      (r.fields.filter (fun kv => kv.2.confidence < cfg.min_confidence_threshold)).length)).sum
    let total_fields := (records.map (fun r => r.fields.length)).sum
    if flagged > 0 ∧ (flagged : ℚ) / (max total_fields 1 : ℚ) > 1/2 ∧
        aiAvail cfg env ∧ s.attempts < cfg.max_retries then
      Conduit.transition {s with attempts := s.attempts + 1} .REPAIR
    else
      let s := emitSig s .EXTRACTION_COMPLETE (.extractionComplete records.length flagged)
      Conduit.transition s .PERSIST

/-- `_phase_repair`: AI-assisted repair; adds the returned records and goes
back to VALIDATE. -/
def phaseRepair (cfg : HermesConfig) (env : Env) (s : ConduitState) :
    ConduitState × Option String :=
  if ¬ aiAvail cfg env ∨ s.current_dom = none then
    (Conduit.fail s "Cannot repair: AI unavailable or no DOM", none)
  else
    let domSize := match s.current_dom with | some d => d.html.length | none => 0
    let s := emitSig s .AI_INVOKED (.aiInvoked "repair" domSize)
    let s := {s with ai_calls := s.ai_calls + 1}
    let s := emitSig s .AI_RESPONDED (.aiResponded "repair" 0 0)
    let p := (env.repairRecords s.tick).foldl
      (fun p r => (p.addProcessedRecord r).1) s.pipeline
    let s := {s with pipeline := p}
    Conduit.transition s .VALIDATE

/-- `_phase_persist`: run the atomic persist, emit `RUN_COMPLETE` and
transition to COMPLETE; any exception in the handler fails the run. -/
def phasePersist (env : Env) (s : ConduitState) : ConduitState × Option String :=
  match Pipeline.persist s.pipeline.processed s.fs (env.persistFailAt s.tick) with
  | (fs', .ok count) =>
    let s := {s with fs := fs'}
    let s := emitSig s .RUN_COMPLETE (.runComplete count s.ai_calls)
    match Conduit.transition s .COMPLETE with
    | (s', none) => (s', none)
    | (s', some e) => (Conduit.fail s' ("Persist failed: " ++ e), none)
  | (fs', .error e) =>
    (Conduit.fail {s with fs := fs'} ("Persist failed: " ++ e), none)

/-- The per-phase dispatch of the `run()` main loop (INIT has no dispatch
arm: for it the loop body is a no-op). -/
def dispatchHandler (cfg : HermesConfig) (env : Env) (s : ConduitState) :
    ConduitState × Option String :=
  match s.phase with
  | .NAVIGATE => phaseNavigate cfg env s
  | .ASSESS => phaseAssess env s
  | .OBSTRUCT => phaseObstruct cfg env s
  | .AI_REASON => phaseAIReason cfg env s
  | .EXECUTE_PLAN => phaseExecutePlan cfg env s
  | .EXTRACT => phaseExtract cfg env s
  | .VALIDATE => phaseValidate cfg env s
  | .REPAIR => phaseRepair cfg env s
  | .PERSIST => phasePersist env s
  | _ => (s, none)

/-- Advance the wall clock by the time the iteration consumed. -/
def advanceClock (env : Env) (tick0 : Nat) (s : ConduitState) : ConduitState :=
  {s with time := s.time + env.dt tick0, tick := tick0 + 1}

/-- One iteration of the `run()` main loop: terminal phases are left alone;
the global-timeout check fails the run; otherwise the current phase's handler
runs, the clock advances, and an exception escaping the handler is caught by
`run()`'s `except` and converted to `_fail("Unhandled exception: …")`. -/
def stepConduit (cfg : HermesConfig) (env : Env) (s : ConduitState) : ConduitState :=
  if TERMINAL_PHASES.contains s.phase then s
  else if s.time > cfg.global_timeout_s then
    Conduit.fail s "Global timeout exceeded"
  else
    let out := dispatchHandler cfg env s
    let s' := advanceClock env s.tick out.1
    match out.2 with
    | none => s'
    | some e => Conduit.fail s' ("Unhandled exception: " ++ e)

/-- The `while self._phase not in TERMINAL_PHASES` loop, with explicit fuel. -/
def runLoop (cfg : HermesConfig) (env : Env) : Nat → ConduitState → ConduitState
  | 0, s => s
  | fuel + 1, s =>
    if TERMINAL_PHASES.contains s.phase then s
    else runLoop cfg env fuel (stepConduit cfg env s)

/-- Fresh Conduit state (`__init__`). -/
def initialState : ConduitState := {}

/-- `Conduit.run()`: INIT first, then the main loop. -/
def conduitRun (cfg : HermesConfig) (env : Env) (fuel : Nat) : ConduitState :=
  runLoop cfg env fuel (phaseInit env initialState)

/-! ## Basic facts about the primitives -/

@[simp]
lemma emitSig_phase (s : ConduitState) (t : SignalType) (p : Payload) :
    (emitSig s t p).phase = s.phase := rfl

@[simp]
lemma emitSig_pending (s : ConduitState) (t : SignalType) (p : Payload) :
    (emitSig s t p).pending_plan = s.pending_plan := rfl

@[simp]
lemma emitSig_time (s : ConduitState) (t : SignalType) (p : Payload) :
    (emitSig s t p).time = s.time := rfl

@[simp]
lemma emitSig_attempts (s : ConduitState) (t : SignalType) (p : Payload) :
    (emitSig s t p).attempts = s.attempts := rfl

@[simp]
lemma emitSig_prior (s : ConduitState) (t : SignalType) (p : Payload) :
    (emitSig s t p).prior_ai_attempts = s.prior_ai_attempts := rfl

@[simp]
lemma emitSig_signals (s : ConduitState) (t : SignalType) (p : Payload) :
    (emitSig s t p).emitter.signals =
      s.emitter.signals ++ [⟨s.emitter.sequence + 1, t, p⟩] := rfl

@[simp]
lemma emitSig_sequence (s : ConduitState) (t : SignalType) (p : Payload) :
    (emitSig s t p).emitter.sequence = s.emitter.sequence + 1 := rfl

@[simp]
lemma emitSig_tick (s : ConduitState) (t : SignalType) (p : Payload) :
    (emitSig s t p).tick = s.tick := rfl

@[simp]
lemma emitSig_ai_calls (s : ConduitState) (t : SignalType) (p : Payload) :
    (emitSig s t p).ai_calls = s.ai_calls := rfl

@[simp]
lemma emitSig_current_dom (s : ConduitState) (t : SignalType) (p : Payload) :
    (emitSig s t p).current_dom = s.current_dom := rfl

@[simp]
lemma emitSig_trace (s : ConduitState) (t : SignalType) (p : Payload) :
    (emitSig s t p).interaction_trace = s.interaction_trace := rfl

@[simp]
lemma emitSig_pipeline (s : ConduitState) (t : SignalType) (p : Payload) :
    (emitSig s t p).pipeline = s.pipeline := rfl

@[simp]
lemma emitSig_fs (s : ConduitState) (t : SignalType) (p : Payload) :
    (emitSig s t p).fs = s.fs := rfl

@[simp]
lemma fail_pending (s : ConduitState) (r : String) :
    (Conduit.fail s r).pending_plan = s.pending_plan := by
  unfold Conduit.fail; split <;> simp

@[simp]
lemma fail_time (s : ConduitState) (r : String) :
    (Conduit.fail s r).time = s.time := by
  unfold Conduit.fail; split <;> simp

/-- `_fail` on a non-terminal phase: enter FAIL and emit exactly one
`RUN_FAILED` signal. -/
lemma fail_spec (s : ConduitState) (r : String)
    (h : ¬ TERMINAL_PHASES.contains s.phase) :
    (Conduit.fail s r).phase = .FAIL ∧
    (Conduit.fail s r).emitter.signals = s.emitter.signals ++
      [⟨s.emitter.sequence + 1, .RUN_FAILED, .runFailed r s.phase s.attempts⟩] := by
  unfold Conduit.fail
  rw [if_neg h]
  simp

@[simp]
lemma transition_fst_pending (s : ConduitState) (q : Phase) :
    (Conduit.transition s q).1.pending_plan = s.pending_plan := by
  unfold Conduit.transition; split <;> simp

@[simp]
lemma transition_fst_time (s : ConduitState) (q : Phase) :
    (Conduit.transition s q).1.time = s.time := by
  unfold Conduit.transition; split <;> simp

@[simp]
lemma transition_fst_attempts (s : ConduitState) (q : Phase) :
    (Conduit.transition s q).1.attempts = s.attempts := by
  unfold Conduit.transition; split <;> simp

/-! ## Theorems -/

/-- C1: Every phase transition performed through `_transition` lands in
`VALID_TRANSITIONS` of the source phase (and emits the matching
`PHASE_TRANSITION` signal), while a `_transition` call whose target is not in
`VALID_TRANSITIONS` of the current phase — such as `_transition(VALIDATE)`
from `INIT` — raises `ConduitError`, leaving the phase unchanged and emitting
no signal. -/
theorem transition_guarded (s : ConduitState) (q : Phase) :
    ((Conduit.transition s q).2 = none →
      q ∈ VALID_TRANSITIONS s.phase ∧
      (Conduit.transition s q).1.phase = q ∧
      (Conduit.transition s q).1.emitter.signals = s.emitter.signals ++
        [⟨s.emitter.sequence + 1, .PHASE_TRANSITION, .phaseTransition s.phase q⟩]) ∧
    (q ∉ VALID_TRANSITIONS s.phase →
      Conduit.transition s q =
        (s, some ("Invalid transition: " ++ s.phase.value ++ " -> " ++ q.value))) := by
  by_cases hv : q ∈ VALID_TRANSITIONS s.phase
  · constructor
    · intro _
      refine ⟨hv, ?_, ?_⟩ <;> simp [Conduit.transition, hv, emitSig, SignalEmitter.emit]
    · intro hmem
      exact absurd hv hmem
  · constructor
    · intro h
      simp [Conduit.transition, hv] at h
    · intro _
      simp [Conduit.transition, hv]

/-- Witness for C1: a successful INIT → NAVIGATE transition is in the table
and emits its `PHASE_TRANSITION`, and the invalid INIT → VALIDATE call errors
out with phase and signals untouched. -/
theorem transition_guarded_witness :
    (Phase.NAVIGATE ∈ VALID_TRANSITIONS Phase.INIT ∧
      (Conduit.transition initialState .NAVIGATE).1.phase = Phase.NAVIGATE ∧
      (Conduit.transition initialState .NAVIGATE).1.emitter.signals =
        [⟨1, .PHASE_TRANSITION, .phaseTransition .INIT .NAVIGATE⟩]) ∧
    Conduit.transition initialState .VALIDATE =
      (initialState, some "Invalid transition: INIT -> VALIDATE") := by
  constructor
  · have h := (transition_guarded initialState .NAVIGATE).1 (by rfl)
    exact ⟨h.1, h.2.1, by simpa [initialState, SignalEmitter.init] using h.2.2⟩
  · have h := (transition_guarded initialState .VALIDATE).2 (by decide)
    simpa using h

/-- The sequence numbers produced by a run of `emit` calls continue the
emitter's current sequence: helper for C4. -/
theorem emitAll_sequences (calls : List (SignalType × Payload)) :
    ∀ e : SignalEmitter,
      (e.emitAll calls).signals.map (fun g => g.sequence) =
        e.signals.map (fun g => g.sequence) ++
          List.range' (e.sequence + 1) calls.length := by
  induction calls with
  | nil => intro e; simp [SignalEmitter.emitAll]
  | cons c rest ih =>
    intro e
    have h := ih (e.emit c.1 c.2).1
    simp only [SignalEmitter.emitAll]
    rw [h]
    simp [SignalEmitter.emit, List.range']

/-- C4: within one run, the sequence numbers of the signals emitted by
`SignalEmitter.emit`, in emission order, are exactly `1, 2, …, N` where `N`
is the number of `emit` calls — numbering starts at 1, increments by exactly
one per signal, with no gaps or repeats. -/
theorem emit_sequences_unbroken (calls : List (SignalType × Payload)) :
    (SignalEmitter.init.emitAll calls).signals.map (fun g => g.sequence) =
      List.range' 1 calls.length := by
  simpa [SignalEmitter.init] using emitAll_sequences calls SignalEmitter.init

/-- C5: `PipelineManager.persist` is atomic. For every batch, prior file
state and injected failure point: the `records.jsonl` path ends up either
exactly as it was or holding the full batch (never a partial prefix); a
successful persist of a non-empty batch leaves the full batch there; and on
any failure the temporary file is gone and the error propagates. -/
theorem persist_atomic (processed : List ExtractionRecord) (fs : FS)
    (failAt : Option Nat) :
    ((Pipeline.persist processed fs failAt).1.target = fs.target ∨
      (Pipeline.persist processed fs failAt).1.target = some processed) ∧
    (processed ≠ [] → (Pipeline.persist processed fs failAt).2 = .ok processed.length →
      (Pipeline.persist processed fs failAt).1.target = some processed) ∧
    (∀ e, (Pipeline.persist processed fs failAt).2 = .error e →
      (Pipeline.persist processed fs failAt).1.tmp = none) := by
  by_cases hp : processed = []
  · subst hp
    simp [Pipeline.persist]
  · rcases failAt with _ | k
    · simp [Pipeline.persist, hp]
    · rcases lt_trichotomy k processed.length with hk | hk | hk
      · simp [Pipeline.persist, hp, hk]
      · simp [Pipeline.persist, hp, hk]
      · have h1 : ¬ k < processed.length := by omega
        by_cases h2 : k = processed.length + 1
        · simp [Pipeline.persist, hp, h1, h2, hk.ne.symm]
        · have h3 : k ≠ processed.length := by omega
          simp [Pipeline.persist, hp, h1, h2, h3]

/-- Witness for C5: persisting a one-record batch with a rename failure
(failure point 1) leaves the previous target untouched, deletes the `.tmp`
file and propagates the error. -/
theorem persist_atomic_witness :
    (Pipeline.persist [⟨[("title", ⟨1⟩)], false⟩] ⟨none, none, false⟩ (some 1)).1.target
        = none ∧
    (Pipeline.persist [⟨[("title", ⟨1⟩)], false⟩] ⟨none, none, false⟩ (some 1)).1.tmp
        = none ∧
    ([⟨[("title", ⟨1⟩)], false⟩] : List ExtractionRecord) ≠ [] ∧
    (Pipeline.persist [⟨[("title", ⟨1⟩)], false⟩] ⟨some [], none, false⟩ none).1.target
        = some [⟨[("title", ⟨1⟩)], false⟩] := by
  have h := persist_atomic [⟨[("title", ⟨1⟩)], false⟩] ⟨none, none, false⟩ (some 1)
  refine ⟨?_, h.2.2 "rename failed" rfl, by decide, ?_⟩
  · rcases h.1 with h1 | h1
    · exact h1
    · exact absurd (rfl.trans h1.symm) (by decide)
  · exact (persist_atomic [⟨[("title", ⟨1⟩)], false⟩] ⟨some [], none, false⟩ none).2.1
      (by decide) rfl

/-- C7: any HTML that contains (after lowercasing) a normalized hard-block
indicator pattern — captcha, recaptcha/hcaptcha iframe sources, login walls,
paywalls — makes `detect_obstruction` return a `HARD_BLOCK` with confidence
0.8 and `requires_ai = false`, regardless of whatever consent-gate or
content-reveal patterns the same HTML also contains (hard blocks are checked
first). -/
theorem hard_block_preempts (html : String)
    (h : ∃ ind ∈ HARD_BLOCK_INDICATORS,
      containsSub (pyLower html) (selectorToHtmlPattern ind) = true) :
    detect_obstruction html = ⟨.HARD_BLOCK, 8/10, none, false⟩ := by
  unfold detect_obstruction
  rw [if_pos]
  exact List.any_eq_true.mpr (by simpa using h)

/-- Witness for C7: a page carrying both a captcha indicator and a cookie
consent banner is classified as a hard block. -/
theorem hard_block_preempts_witness :
    detect_obstruction
      "<div class=\x22captcha\x22></div><div id=\x22cookie-consent\x22><button class=\x22accept\x22>ok</button></div>"
      = ⟨.HARD_BLOCK, 8/10, none, false⟩ :=
  hard_block_preempts _ ⟨"[class*=\x22captcha\x22]", by decide, by decide⟩

/-- The validation loop only emits `AI_REJECTED` signals and touches nothing
else in the state. -/
lemma validateActions_fst (cfg : HermesConfig) (l : List FunctionCall) :
    ∀ s, ∃ new, (validateActions cfg l s).1 =
      {s with emitter := ⟨s.emitter.sequence + new.length, s.emitter.signals ++ new⟩} ∧
      ∀ g ∈ new, g.signal_type = .AI_REJECTED := by
  induction l with
  | nil =>
    intro s
    refine ⟨[], ?_, by simp⟩
    simp [validateActions]
  | cons a rest ih =>
    intro s
    rw [validateActions]
    cases hv : validate_function_call a cfg.allow_cross_origin with
    | some e =>
      obtain ⟨new, h1, h2⟩ := ih
        (emitSig s .AI_REJECTED (.aiRejected e a.function "AI_REASON"))
      refine ⟨⟨s.emitter.sequence + 1, .AI_REJECTED,
        .aiRejected e a.function "AI_REASON"⟩ :: new, ?_, ?_⟩
      · rw [h1]
        simp [emitSig, SignalEmitter.emit]
        omega
      · intro g hg
        rcases List.mem_cons.mp hg with h | h
        · rw [h]
        · exact h2 g h
    | none =>
      obtain ⟨new, h1, h2⟩ := ih s
      exact ⟨new, h1, h2⟩

@[simp]
lemma validateActions_fst_pending (cfg : HermesConfig) (l : List FunctionCall)
    (s : ConduitState) :
    (validateActions cfg l s).1.pending_plan = s.pending_plan := by
  obtain ⟨new, h, -⟩ := validateActions_fst cfg l s; rw [h]

@[simp]
lemma validateActions_fst_phase (cfg : HermesConfig) (l : List FunctionCall)
    (s : ConduitState) :
    (validateActions cfg l s).1.phase = s.phase := by
  obtain ⟨new, h, -⟩ := validateActions_fst cfg l s; rw [h]

@[simp]
lemma validateActions_fst_attempts (cfg : HermesConfig) (l : List FunctionCall)
    (s : ConduitState) :
    (validateActions cfg l s).1.attempts = s.attempts := by
  obtain ⟨new, h, -⟩ := validateActions_fst cfg l s; rw [h]

@[simp]
lemma validateActions_fst_prior (cfg : HermesConfig) (l : List FunctionCall)
    (s : ConduitState) :
    (validateActions cfg l s).1.prior_ai_attempts = s.prior_ai_attempts := by
  obtain ⟨new, h, -⟩ := validateActions_fst cfg l s; rw [h]

@[simp]
lemma validateActions_fst_time (cfg : HermesConfig) (l : List FunctionCall)
    (s : ConduitState) :
    (validateActions cfg l s).1.time = s.time := by
  obtain ⟨new, h, -⟩ := validateActions_fst cfg l s; rw [h]

@[simp]
lemma validateActions_fst_tick (cfg : HermesConfig) (l : List FunctionCall)
    (s : ConduitState) :
    (validateActions cfg l s).1.tick = s.tick := by
  obtain ⟨new, h, -⟩ := validateActions_fst cfg l s; rw [h]

/-- The survivors of the validation loop are a sublist (in order) of the
plan's actions. -/
lemma validateActions_sublist (cfg : HermesConfig) (l : List FunctionCall) :
    ∀ s, (validateActions cfg l s).2.Sublist l := by
  induction l with
  | nil => intro s; simp [validateActions]
  | cons a rest ih =>
    intro s
    rw [validateActions]
    cases hv : validate_function_call a cfg.allow_cross_origin with
    | some e => exact List.Sublist.cons a (ih _)
    | none => exact List.Sublist.cons₂ a (ih _)

/-- A generated plan's actions are either empty or the decoded actions
truncated at the cap. -/
lemma gen_plan_actions_cases (avail : Bool) (prior : Option (List PyAttempt))
    (raw : List FunctionCall) (conf : ℚ) :
    (generate_navigation_plan avail prior raw conf).actions = [] ∨
    (generate_navigation_plan avail prior raw conf).actions = raw.take 20 := by
  rw [generate_navigation_plan]
  by_cases ha : avail
  · simp only [ha, not_true, if_false]
    have hite : (if raw.length > MAX_FUNCTION_CALLS_PER_INVOCATION then
        raw.take MAX_FUNCTION_CALLS_PER_INVOCATION else raw) = raw.take 20 := by
      rw [MAX_FUNCTION_CALLS_PER_INVOCATION]
      split
      · rfl
      · rw [List.take_of_length_le (by omega)]
    rcases prior with _ | l
    · right; simpa using hite
    · rcases l with _ | ⟨p, rest⟩
      · right; simpa using hite
      · cases hf : formatPriorAttempts (p :: rest) with
        | error e => left; simp [hf, Bind.bind, Except.bind]
        | ok v => right; simp [hf, Bind.bind, Except.bind]; exact hite
  · simp [ha]

/-- The pending plan written by the AI_REASON handler is always a sublist of
the first 20 decoded actions of the model's plan (or the handler leaves the
pending plan untouched). -/
lemma aiReason_pending (cfg : HermesConfig) (env : Env) (s : ConduitState) :
    (phaseAIReason cfg env s).1.pending_plan = s.pending_plan ∨
    (phaseAIReason cfg env s).1.pending_plan.Sublist
      ((env.aiRawActions s.tick).take 20) := by
  rw [phaseAIReason]
  cases hdom : s.current_dom with
  | none => left; simp
  | some dom =>
    simp only [emitSig_prior, emitSig_tick, emitSig_pending, emitSig_phase,
      emitSig_attempts, emitSig_ai_calls, emitSig_current_dom]
    by_cases hprior : s.prior_ai_attempts = []
    · rw [if_pos hprior]
      rcases gen_plan_actions_cases (aiAvail cfg env) none
        (env.aiRawActions s.tick) (env.aiConfidence s.tick) with hpl | hpl
      · rw [hpl, if_pos (rfl : ([] : List FunctionCall) = [])]
        split
        · left; simp
        · left; simp
      · rw [hpl]
        by_cases hemp : (env.aiRawActions s.tick).take 20 = []
        · rw [hemp, if_pos (rfl : ([] : List FunctionCall) = [])]
          split
          · left; simp
          · left; simp
        · rw [if_neg hemp]
          split
          · left; simp
          · right
            simp only [transition_fst_pending]
            exact validateActions_sublist cfg _ _
    · rw [if_neg hprior]
      rcases gen_plan_actions_cases (aiAvail cfg env)
        (some (s.prior_ai_attempts.map .pystr))
        (env.aiRawActions s.tick) (env.aiConfidence s.tick) with hpl | hpl
      · rw [hpl, if_pos (rfl : ([] : List FunctionCall) = [])]
        split
        · left; simp
        · left; simp
      · rw [hpl]
        by_cases hemp : (env.aiRawActions s.tick).take 20 = []
        · rw [hemp, if_pos (rfl : ([] : List FunctionCall) = [])]
          split
          · left; simp
          · left; simp
        · rw [if_neg hemp]
          split
          · left; simp
          · right
            simp only [transition_fst_pending]
            exact validateActions_sublist cfg _ _

@[simp]
lemma advanceClock_phase (env : Env) (t : Nat) (s : ConduitState) :
    (advanceClock env t s).phase = s.phase := rfl

@[simp]
lemma advanceClock_pending (env : Env) (t : Nat) (s : ConduitState) :
    (advanceClock env t s).pending_plan = s.pending_plan := rfl

@[simp]
lemma advanceClock_signals (env : Env) (t : Nat) (s : ConduitState) :
    (advanceClock env t s).emitter = s.emitter := rfl

@[simp]
lemma advanceClock_attempts (env : Env) (t : Nat) (s : ConduitState) :
    (advanceClock env t s).attempts = s.attempts := rfl

@[simp]
lemma advanceClock_prior (env : Env) (t : Nat) (s : ConduitState) :
    (advanceClock env t s).prior_ai_attempts = s.prior_ai_attempts := rfl

@[simp]
lemma advanceClock_time (env : Env) (t : Nat) (s : ConduitState) :
    (advanceClock env t s).time = s.time + env.dt t := rfl

/-- C6: every navigation plan contains at most 20 actions — the decoded
actions are truncated, in order, at the cap of 20 — and consequently the
pending plan the Conduit stores in AI_REASON never contains an action beyond
the 20th one of the model's plan. -/
theorem plan_capped_at_20 (raw : List FunctionCall) (conf : ℚ) (avail : Bool)
    (prior : Option (List PyAttempt)) (cfg : HermesConfig) (env : Env)
    (s : ConduitState) :
    (generate_navigation_plan true none raw conf).actions = raw.take 20 ∧
    (generate_navigation_plan avail prior raw conf).actions.length ≤ 20 ∧
    (s.phase = .AI_REASON →
      (stepConduit cfg env s).pending_plan = s.pending_plan ∨
      (stepConduit cfg env s).pending_plan.Sublist
        ((env.aiRawActions s.tick).take 20)) := by
  refine ⟨?_, ?_, ?_⟩
  · have hred : generate_navigation_plan true none raw conf =
        ⟨if raw.length > MAX_FUNCTION_CALLS_PER_INVOCATION then
          raw.take MAX_FUNCTION_CALLS_PER_INVOCATION else raw, conf⟩ := rfl
    rw [hred]
    by_cases hr : raw.length > MAX_FUNCTION_CALLS_PER_INVOCATION
    · simp only [if_pos hr]
      rfl
    · simp only [if_neg hr]
      exact (List.take_of_length_le
        (by rw [MAX_FUNCTION_CALLS_PER_INVOCATION] at hr; omega)).symm
  · rcases gen_plan_actions_cases avail prior raw conf with h | h
    · simp [h]
    · rw [h]
      have := List.length_take 20 raw
      omega
  · intro hph
    rw [stepConduit, if_neg (by rw [hph]; decide)]
    by_cases ht : s.time > cfg.global_timeout_s
    · rw [if_pos ht]; left; simp
    · rw [if_neg ht]
      have hd : dispatchHandler cfg env s = phaseAIReason cfg env s := by
        rw [dispatchHandler, hph]
      rcases aiReason_pending cfg env s with hp | hp <;>
        [left; right] <;>
        · simp only [hd]
          cases herr : (phaseAIReason cfg env s).2 <;>
            simpa [advanceClock] using hp

/-- Concrete run for the C6 witness: the model returns 25 valid clicks. -/
def c6cfg : HermesConfig := { target_url := "https://example.com" }

/-- Environment for the C6 witness. -/
def c6env : Env :=
  { aiInitOk := true,
    aiRawActions := fun _ => List.replicate 25 ⟨"click", [("selector", "#b")]⟩ }

/-- State for the C6 witness: mid-run, in AI_REASON, with a cached DOM. -/
def c6state : ConduitState :=
  { phase := .AI_REASON, current_dom := some ⟨"<html></html>", "", ""⟩ }

/-- Witness for C6: a 25-action plan is truncated to its first 20 actions,
and the pending plan stored by the step is inside those 20. -/
theorem plan_capped_at_20_witness :
    (generate_navigation_plan true none
        (List.replicate 25 ⟨"click", [("selector", "#b")]⟩) (1/2)).actions =
      (List.replicate 25 (⟨"click", [("selector", "#b")]⟩ : FunctionCall)).take 20 ∧
    ((stepConduit c6cfg c6env c6state).pending_plan = c6state.pending_plan ∨
      (stepConduit c6cfg c6env c6state).pending_plan.Sublist
        ((c6env.aiRawActions c6state.tick).take 20)) :=
  ⟨(plan_capped_at_20 (List.replicate 25 ⟨"click", [("selector", "#b")]⟩) (1/2)
      true none c6cfg c6env c6state).1,
   (plan_capped_at_20 (List.replicate 25 ⟨"click", [("selector", "#b")]⟩) (1/2)
      true none c6cfg c6env c6state).2.2 rfl⟩

/-- C8: with `allow_cross_origin = false`, a validated `navigate_url` action
whose URL resolves to a non-empty host different from the run target's host
makes `_execute_action` return `"failure"` while performing no Browser Layer
call at all. -/
theorem cross_origin_navigate_no_browser_call (browser : BrowserCall → ActionStatus)
    (target_url url : String) (a : FunctionCall)
    (hfn : a.function = "navigate_url")
    (hurl : pget a.parameters "url" = some url)
    (_hval : validate_function_call a false = none)
    (hne : urlparseNetloc url ≠ "")
    (hdiff : urlparseNetloc url ≠ urlparseNetloc target_url) :
    executeAction browser false target_url a = ("failure", []) := by
  rw [executeAction, hfn]
  simp [hurl, hne, hdiff]

/-- Witness for C8: navigating to `https://other.com/x` from a run whose
target is `https://example.com` (cross-origin forbidden) fails without a
browser call. -/
theorem cross_origin_navigate_no_browser_call_witness :
    executeAction (fun _ => .SUCCESS) false "https://example.com"
      ⟨"navigate_url", [("url", "https://other.com/x")]⟩ = ("failure", []) :=
  cross_origin_navigate_no_browser_call (fun _ => .SUCCESS)
    "https://example.com" "https://other.com/x"
    ⟨"navigate_url", [("url", "https://other.com/x")]⟩
    rfl (by decide) (by decide) (by decide) (by decide)

/-- Whatever the engine availability, a prior-attempts list of plain strings
makes `generate_navigation_plan` return the empty plan: the attempt-formatting
loop's attribute reads raise, the `try` catches, and the low-confidence
default comes back. -/
lemma gen_plan_string_priors (avail : Bool) (p : String) (rest : List String)
    (raw : List FunctionCall) (conf : ℚ) :
    generate_navigation_plan avail (some ((p :: rest).map PyAttempt.pystr)) raw conf =
      ⟨[], 0⟩ := by
  cases avail <;> rfl

/-- The AI_REASON handler, entered with a non-empty prior-attempts list,
either fails the run directly or bounces off the invalid AI_REASON → NAVIGATE
transition (an escaping exception). -/
lemma aiReason_with_priors (cfg : HermesConfig) (env : Env) (s : ConduitState)
    (hph : s.phase = .AI_REASON) (hpr : s.prior_ai_attempts ≠ []) :
    ((phaseAIReason cfg env s).1.phase = .FAIL ∧ (phaseAIReason cfg env s).2 = none) ∨
    ((phaseAIReason cfg env s).1.phase = .AI_REASON ∧
      (phaseAIReason cfg env s).2 ≠ none) := by
  rw [phaseAIReason]
  cases hdom : s.current_dom with
  | none =>
    left
    exact ⟨(fail_spec s _ (by rw [hph]; decide)).1, rfl⟩
  | some dom =>
    simp only [emitSig_prior, emitSig_tick, emitSig_pending, emitSig_phase,
      emitSig_attempts, emitSig_ai_calls, emitSig_current_dom]
    cases hc : s.prior_ai_attempts with
    | nil => exact absurd hc hpr
    | cons p rest =>
      rw [if_neg (List.cons_ne_nil p rest)]
      rw [gen_plan_string_priors]
      rw [if_pos (rfl : ([] : List FunctionCall) = [])]
      split
      · -- retries remain: `_transition(NAVIGATE)` raises from AI_REASON
        right
        rw [Conduit.transition]
        rw [if_neg (by simp [hph]; decide)]
        exact ⟨by simp [hph], by simp⟩
      · -- retries exhausted: `_fail` runs
        left
        refine ⟨?_, rfl⟩
        exact (fail_spec _ _ (by simp [hph]; decide)).1

/-- C10: whenever the Conduit reaches AI_REASON with at least one recorded
prior attempt, `generate_navigation_plan` returns the empty plan (`actions =
[]`, confidence 0.0) regardless of the decoded model response: the Conduit
stores prior attempts as plain strings, the engine's formatting loop reads
`AttemptRecord` attributes from them, and the resulting `AttributeError` is
caught and converted to the default before any model call. Consequently the
Conduit never reaches EXECUTE_PLAN from such a state (it fails). -/
theorem string_priors_force_empty_plan (prior : List String)
    (raw : List FunctionCall) (conf : ℚ) (cfg : HermesConfig) (env : Env)
    (s : ConduitState) (hp : prior ≠ []) :
    generate_navigation_plan true
        (if prior = [] then none else some (prior.map PyAttempt.pystr)) raw conf =
      ⟨[], 0⟩ ∧
    (s.phase = .AI_REASON → s.prior_ai_attempts ≠ [] →
      (stepConduit cfg env s).phase = .FAIL) := by
  constructor
  · rcases prior with _ | ⟨p, rest⟩
    · exact absurd rfl hp
    · rw [if_neg hp]
      exact gen_plan_string_priors true p rest raw conf
  · intro hph hpr
    rw [stepConduit, if_neg (by rw [hph]; decide)]
    by_cases ht : s.time > cfg.global_timeout_s
    · rw [if_pos ht]
      exact (fail_spec s _ (by rw [hph]; decide)).1
    · rw [if_neg ht]
      have hd : dispatchHandler cfg env s = phaseAIReason cfg env s := by
        rw [dispatchHandler, hph]
      simp only [hd]
      rcases aiReason_with_priors cfg env s hph hpr with ⟨h1, h2⟩ | ⟨h1, h2⟩
      · rw [h2]
        simpa using h1
      · cases herr : (phaseAIReason cfg env s).2 with
        | none => exact absurd herr h2
        | some e =>
          exact (fail_spec _ _ (by simp only [advanceClock_phase, h1]; decide)).1

/-- State for the C10 witness: AI_REASON with one recorded prior attempt. -/
def c10state : ConduitState :=
  { phase := .AI_REASON, prior_ai_attempts := ["AI returned empty plan"],
    current_dom := some ⟨"<html></html>", "", ""⟩ }

/-- Witness for C10: with the prior attempt `"AI returned empty plan"` on
file and a model response of one perfectly valid click, the plan comes back
empty and the step fails the run. -/
theorem string_priors_force_empty_plan_witness :
    generate_navigation_plan true
        (if (["AI returned empty plan"] : List String) = [] then none
         else some ((["AI returned empty plan"] : List String).map PyAttempt.pystr))
        [⟨"click", [("selector", "#b")]⟩] (9/10) = ⟨[], 0⟩ ∧
    (stepConduit c6cfg c6env c10state).phase = .FAIL :=
  ⟨(string_priors_force_empty_plan ["AI returned empty plan"]
      [⟨"click", [("selector", "#b")]⟩] (9/10) c6cfg c6env c10state
      (by decide)).1,
   (string_priors_force_empty_plan ["AI returned empty plan"]
      [⟨"click", [("selector", "#b")]⟩] (9/10) c6cfg c6env c10state
      (by decide)).2 rfl (by decide)⟩

/-- Config for the C2 scenario: defaults, AI extraction mode. -/
def c2cfg : HermesConfig := { target_url := "https://example.com", extraction_mode := "ai" }

/-- Environment for the C2 scenario: AI initialized, model responds with an
empty action list (`{"actions": []}`). -/
def c2env : Env := { aiInitOk := true }

/-- State for the C2 scenario: AI_REASON, cached DOM, zero attempts so far
(all three retries remain). -/
def c2state : ConduitState :=
  { phase := .AI_REASON, current_dom := some ⟨"<html></html>", "", ""⟩ }

/-- C2 (the code against the claim): in AI_REASON with an empty plan and
`attempts = 0 < max_retries = 3`, the Conduit records the prior-attempt note
and consumes one retry, but the attempted transition AI_REASON → NAVIGATE is
not in `VALID_TRANSITIONS`, so `_transition` raises and the run fails
immediately — with “Unhandled exception: Invalid transition: AI_REASON ->
NAVIGATE”, not an empty-plan failure — even though retries remained. -/
theorem empty_plan_retry_hits_invalid_transition :
    c2state.attempts < c2cfg.max_retries ∧
    (stepConduit c2cfg c2env c2state).phase = .FAIL ∧
    (stepConduit c2cfg c2env c2state).attempts = 1 ∧
    (stepConduit c2cfg c2env c2state).prior_ai_attempts = ["AI returned empty plan"] ∧
    ((stepConduit c2cfg c2env c2state).emitter.signals.map (fun g => g.signal_type)) =
      [.AI_INVOKED, .AI_RESPONDED, .RUN_FAILED] ∧
    ((stepConduit c2cfg c2env c2state).emitter.signals.getLast?).map (fun g => g.payload)
      = some (.runFailed
          "Unhandled exception: Invalid transition: AI_REASON -> NAVIGATE"
          .AI_REASON 1) := by
  decide

/-- Config for the C3 counterexample. -/
def c3cfg : HermesConfig := { target_url := "https://example.com" }

/-- Environment for the C3 counterexample: `capture_dom()` returns `None`. -/
def c3env : Env := {}

/-- State for the C3 counterexample: the ASSESS phase. -/
def c3state : ConduitState := { phase := .ASSESS }

/-- Counterexample to C3: a failed DOM capture in ASSESS makes the Conduit
change phase (ASSESS → FAIL) while emitting only a `RUN_FAILED` signal — no
`PHASE_TRANSITION` signal accompanies the change into FAIL, because `_fail`
sets the phase directly instead of calling `_transition`. -/
theorem fail_bypasses_transition_counterexample :
    (stepConduit c3cfg c3env c3state).phase ≠ c3state.phase ∧
    (stepConduit c3cfg c3env c3state).phase = .FAIL ∧
    ((stepConduit c3cfg c3env c3state).emitter.signals.map (fun g => g.signal_type)) =
      [.RUN_FAILED] := by
  decide

/-! ## Signal discipline of the run loop (for C3 and C9) -/

/-- A signal that is neither `RUN_COMPLETE` nor `RUN_FAILED`. -/
def cleanSig (g : Signal) : Prop :=
  g.signal_type ≠ .RUN_COMPLETE ∧ g.signal_type ≠ .RUN_FAILED

/-- `s'` extends `s` by a handler's work without a phase transition or a
failure: same phase, same clock, and only clean signals appended. -/
def Untransitioned (s s' : ConduitState) : Prop :=
  s'.phase = s.phase ∧ s'.time = s.time ∧
  ∃ new, s'.emitter.signals = s.emitter.signals ++ new ∧ ∀ g ∈ new, cleanSig g

lemma Untransitioned.refl (s : ConduitState) : Untransitioned s s :=
  ⟨rfl, rfl, [], by simp, by simp⟩

lemma Untransitioned.update {s s' s'' : ConduitState} (h : Untransitioned s s')
    (he : s''.emitter = s'.emitter) (hp : s''.phase = s'.phase)
    (ht : s''.time = s'.time) : Untransitioned s s'' := by
  obtain ⟨h1, h2, new, h3, h4⟩ := h
  exact ⟨hp.trans h1, ht.trans h2, new, by rw [he]; exact h3, h4⟩

lemma Untransitioned.emit {s s' : ConduitState} (h : Untransitioned s s')
    (t : SignalType) (p : Payload)
    (hc : t ≠ .RUN_COMPLETE ∧ t ≠ .RUN_FAILED) :
    Untransitioned s (emitSig s' t p) := by
  obtain ⟨h1, h2, new, h3, h4⟩ := h
  refine ⟨by simpa using h1, by simpa using h2,
    new ++ [⟨s'.emitter.sequence + 1, t, p⟩], ?_, ?_⟩
  · simp [h3]
  · intro g hg
    rcases List.mem_append.mp hg with hg | hg
    · exact h4 g hg
    · rcases List.mem_singleton.mp hg with rfl
      exact hc

/-- What one invocation of a phase handler may do to the state, seen from the
signal ledger: any phase change except into FAIL ends the ledger with the
`PHASE_TRANSITION` of that edge; a state left in FAIL ends the ledger with a
`RUN_FAILED` after only clean signals; a state left in COMPLETE ends it with
`RUN_COMPLETE` followed by the final `PHASE_TRANSITION`; an escaping
exception leaves the phase unchanged; the handler itself does not advance the
clock. -/
structure HandlerOk (s : ConduitState) (out : ConduitState × Option String) : Prop where
  timeSame : out.1.time = s.time
  changePT : out.1.phase ≠ s.phase → out.1.phase ≠ .FAIL →
    ∃ n, out.1.emitter.signals.getLast? =
      some ⟨n, .PHASE_TRANSITION, .phaseTransition s.phase out.1.phase⟩
  cleanMid : out.1.phase ≠ .FAIL → out.1.phase ≠ .COMPLETE →
    ∃ new, out.1.emitter.signals = s.emitter.signals ++ new ∧ ∀ g ∈ new, cleanSig g
  failShape : out.1.phase = .FAIL →
    ∃ new rf, out.1.emitter.signals = s.emitter.signals ++ new ++ [rf] ∧
      (∀ g ∈ new, cleanSig g) ∧ rf.signal_type = .RUN_FAILED
  completeShape : out.1.phase = .COMPLETE →
    ∃ new rc pt, out.1.emitter.signals = s.emitter.signals ++ new ++ [rc, pt] ∧
      (∀ g ∈ new, cleanSig g) ∧ rc.signal_type = .RUN_COMPLETE ∧
      pt.signal_type = .PHASE_TRANSITION
  errSame : out.2 ≠ none → out.1.phase = s.phase

/-- A non-terminal phase is neither COMPLETE nor FAIL. -/
lemma not_terminal_iff (p : Phase) :
    TERMINAL_PHASES.contains p = false ↔ p ≠ .COMPLETE ∧ p ≠ .FAIL := by
  cases p <;> simp [TERMINAL_PHASES]

/-- Handler leaf: nothing observable happened (no transition, no failure). -/
lemma handlerOk_of_none {s s' : ConduitState} (h : Untransitioned s s')
    (hterm : TERMINAL_PHASES.contains s.phase = false) :
    HandlerOk s (s', none) := by
  obtain ⟨hp, ht, new, hsig, hclean⟩ := h
  obtain ⟨hnc, hnf⟩ := (not_terminal_iff s.phase).mp hterm
  refine ⟨ht, ?_, ?_, ?_, ?_, ?_⟩
  · intro hne _
    exact absurd hp hne
  · intro _ _
    exact ⟨new, hsig, hclean⟩
  · intro hf
    exact absurd (hp.symm.trans hf) hnf
  · intro hc
    exact absurd (hp.symm.trans hc) hnc
  · intro _
    exact hp

/-- Handler leaf: `_fail` was called on an untransitioned intermediate
state. -/
lemma handlerOk_of_fail {s s' : ConduitState} (r : String)
    (h : Untransitioned s s')
    (hterm : TERMINAL_PHASES.contains s.phase = false) :
    HandlerOk s (Conduit.fail s' r, none) := by
  obtain ⟨hp, ht, new, hsig, hclean⟩ := h
  have hterm' : ¬ TERMINAL_PHASES.contains s'.phase = true := by
    rw [hp, hterm]; simp
  obtain ⟨hfp, hfsig⟩ := fail_spec s' r hterm'
  refine ⟨by simpa using ht, ?_, ?_, ?_, ?_, ?_⟩
  · intro _ hnf
    exact absurd hfp hnf
  · intro hnf _
    exact absurd hfp hnf
  · intro _
    exact ⟨new, ⟨s'.emitter.sequence + 1, .RUN_FAILED, .runFailed r s'.phase s'.attempts⟩,
      by rw [hfsig, hsig, List.append_assoc], hclean, rfl⟩
  · intro hc
    rw [hfp] at hc
    exact absurd hc (by decide)
  · intro h
    exact absurd rfl h

/-- Handler leaf: `_transition` was called on an untransitioned intermediate
state, towards a target that is neither FAIL nor COMPLETE. -/
lemma handlerOk_of_transition {s s' : ConduitState} (q : Phase)
    (h : Untransitioned s s')
    (hterm : TERMINAL_PHASES.contains s.phase = false)
    (hq : q ≠ .FAIL ∧ q ≠ .COMPLETE) :
    HandlerOk s (Conduit.transition s' q) := by
  obtain ⟨hp, ht, new, hsig, hclean⟩ := h
  obtain ⟨hnc, hnf⟩ := (not_terminal_iff s.phase).mp hterm
  rw [Conduit.transition]
  by_cases hv : (VALID_TRANSITIONS s'.phase).contains q
  · rw [if_pos hv]
    refine ⟨by simpa using ht, ?_, ?_, ?_, ?_, ?_⟩
    · intro _ _
      refine ⟨s'.emitter.sequence + 1, ?_⟩
      simp only [emitSig_signals]
      rw [List.getLast?_concat]
      simp [hp]
    · intro _ _
      refine ⟨new ++ [⟨s'.emitter.sequence + 1, .PHASE_TRANSITION,
        .phaseTransition s'.phase q⟩], ?_, ?_⟩
      · simp [hsig]
      · intro g hg
        rcases List.mem_append.mp hg with hg | hg
        · exact hclean g hg
        · rcases List.mem_singleton.mp hg with rfl
          exact ⟨by simp, by simp⟩
    · intro hf
      simp only [emitSig_phase] at hf
      exact absurd hf hq.1
    · intro hc
      simp only [emitSig_phase] at hc
      exact absurd hc hq.2
    · intro h
      exact absurd rfl h
  · rw [if_neg hv]
    refine ⟨ht, ?_, ?_, ?_, ?_, ?_⟩
    · intro hne _
      exact absurd hp hne
    · intro _ _
      exact ⟨new, hsig, hclean⟩
    · intro hf
      exact absurd (hp.symm.trans hf) hnf
    · intro hc
      exact absurd (hp.symm.trans hc) hnc
    · intro _
      exact hp

lemma Untransitioned.trans {s s' s'' : ConduitState}
    (h1 : Untransitioned s s') (h2 : Untransitioned s' s'') :
    Untransitioned s s'' := by
  obtain ⟨a1, b1, n1, c1, d1⟩ := h1
  obtain ⟨a2, b2, n2, c2, d2⟩ := h2
  refine ⟨a2.trans a1, b2.trans b1, n1 ++ n2, ?_, ?_⟩
  · rw [c2, c1, List.append_assoc]
  · intro g hg
    rcases List.mem_append.mp hg with hg | hg
    · exact d1 g hg
    · exact d2 g hg

/-- The validation loop leaves phase, clock and ledger discipline intact. -/
lemma validateActions_untransitioned (cfg : HermesConfig) (l : List FunctionCall)
    (s : ConduitState) : Untransitioned s (validateActions cfg l s).1 := by
  obtain ⟨new, h1, h2⟩ := validateActions_fst cfg l s
  refine ⟨by rw [h1], by rw [h1], new, by rw [h1], ?_⟩
  intro g hg
  have := h2 g hg
  exact ⟨by rw [this]; decide, by rw [this]; decide⟩

/-- The plan-execution loop only emits `ACTION_EXECUTED` signals and never
changes the phase or the clock. -/
lemma execLoop_untransitioned (b : BrowserCall → ActionStatus) (cfg : HermesConfig)
    (l : List FunctionCall) : ∀ s, Untransitioned s (execLoop b cfg l s) := by
  induction l with
  | nil => intro s; rw [execLoop]; exact .refl s
  | cons a rest ih =>
    intro s
    rw [execLoop]
    split
    · exact (((Untransitioned.refl s).emit _ _ (by decide)).update rfl rfl rfl)
    · exact (((Untransitioned.refl s).emit _ _ (by decide)).update rfl rfl rfl).trans (ih _)

/-- Heuristic extraction only touches the pipeline. -/
lemma extractHeuristic_untransitioned (env : Env) (s : ConduitState) :
    Untransitioned s (extractHeuristic env s) := by
  rw [extractHeuristic]
  split
  · exact .refl s
  · exact (Untransitioned.refl s).update rfl rfl rfl

/-- AI extraction emits `AI_INVOKED`/`AI_RESPONDED` and touches the pipeline. -/
lemma extractAI_untransitioned (env : Env) (s : ConduitState) :
    Untransitioned s (extractAI env s) := by
  rw [extractAI]
  cases s.current_dom
  · exact .refl s
  · exact (((((Untransitioned.refl s).emit _ _ (by decide)).update rfl rfl rfl).emit
      _ _ (by decide)).update rfl rfl rfl)

/-- Hybrid extraction composes the two passes. -/
lemma extractHybrid_untransitioned (cfg : HermesConfig) (env : Env) (s : ConduitState) :
    Untransitioned s (extractHybrid cfg env s) := by
  rw [extractHybrid]
  by_cases hs : cfg.heuristic_selectors ≠ []
  · rw [if_pos hs]
    split
    · exact (extractHeuristic_untransitioned env s).trans
        (extractAI_untransitioned env (extractHeuristic env s))
    · exact extractHeuristic_untransitioned env s
  · rw [if_neg hs]
    split
    · exact (Untransitioned.refl s).trans (extractAI_untransitioned env s)
    · exact .refl s

lemma handlerOk_navigate (cfg : HermesConfig) (env : Env) (s : ConduitState)
    (hterm : TERMINAL_PHASES.contains s.phase = false) :
    HandlerOk s (phaseNavigate cfg env s) := by
  rw [phaseNavigate]
  cases env.nav s.tick with
  | SUCCESS =>
    exact handlerOk_of_transition .ASSESS
      ((Untransitioned.refl s).update rfl rfl rfl) hterm (by decide)
  | FAILURE =>
    dsimp only
    split
    · exact handlerOk_of_none
        (((Untransitioned.refl s).update rfl rfl rfl).emit .RETRY_ATTEMPT _ (by decide)) hterm
    · exact handlerOk_of_fail _ (.refl s) hterm
  | TIMEOUT =>
    dsimp only
    split
    · exact handlerOk_of_none
        (((Untransitioned.refl s).update rfl rfl rfl).emit .RETRY_ATTEMPT _ (by decide)) hterm
    · exact handlerOk_of_fail _ (.refl s) hterm

lemma handlerOk_assess (env : Env) (s : ConduitState)
    (hterm : TERMINAL_PHASES.contains s.phase = false) :
    HandlerOk s (phaseAssess env s) := by
  rw [phaseAssess]
  cases env.captureDom s.tick with
  | none => exact handlerOk_of_fail _ (.refl s) hterm
  | some dom =>
    dsimp only
    by_cases h1 : (detect_obstruction dom.html).obstruction_type = .NONE
    · rw [if_pos h1]
      exact handlerOk_of_transition .EXTRACT
        ((Untransitioned.refl s).update rfl rfl rfl) hterm (by decide)
    · rw [if_neg h1]
      by_cases h2 : (detect_obstruction dom.html).obstruction_type = .HARD_BLOCK
      · rw [if_pos h2]
        exact handlerOk_of_fail _
          (((Untransitioned.refl s).update rfl rfl rfl).emit
            .OBSTRUCTION_DETECTED _ (by decide)) hterm
      · rw [if_neg h2]
        exact handlerOk_of_transition .OBSTRUCT
          (((Untransitioned.refl s).update rfl rfl rfl).emit
            .OBSTRUCTION_DETECTED _ (by decide))
          hterm (by decide)

lemma handlerOk_obstruct (cfg : HermesConfig) (env : Env) (s : ConduitState)
    (hterm : TERMINAL_PHASES.contains s.phase = false) :
    HandlerOk s (phaseObstruct cfg env s) := by
  rw [phaseObstruct]
  cases s.current_dom with
  | none => exact handlerOk_of_fail _ (.refl s) hterm
  | some dom =>
    dsimp only
    have hesc : ∀ s' : ConduitState, Untransitioned s s' →
        HandlerOk s (if aiAvail cfg env = true then Conduit.transition s' .AI_REASON
          else if s'.attempts < cfg.max_retries then
            Conduit.transition
              (emitSig {s' with attempts := s'.attempts + 1} .RETRY_ATTEMPT
                (.retryAttempt (s'.attempts + 1) cfg.max_retries
                  "Obstruction unresolvable without AI")) .NAVIGATE
          else
            (Conduit.fail s'
              "Obstruction unresolvable: AI not available and retries exhausted", none)) := by
      intro s' hu
      split
      · exact handlerOk_of_transition .AI_REASON hu hterm (by decide)
      · split
        · exact handlerOk_of_transition .NAVIGATE
            ((hu.update rfl rfl rfl).emit .RETRY_ATTEMPT _ (by decide)) hterm (by decide)
        · exact handlerOk_of_fail _ hu hterm
    cases hsel : (detect_obstruction dom.html).selector with
    | none => exact hesc s (.refl s)
    | some sel =>
      dsimp only
      split
      · cases hres : env.browser s.tick (.click sel "1000") with
        | SUCCESS =>
          rw [if_pos rfl]
          refine handlerOk_of_transition .NAVIGATE ?_ hterm (by decide)
          exact ((Untransitioned.refl s).emit .ACTION_EXECUTED _ (by decide)).update
            rfl rfl rfl
        | FAILURE =>
          rw [if_neg (by decide)]
          exact hesc _ ((Untransitioned.refl s).emit .ACTION_EXECUTED _ (by decide))
        | TIMEOUT =>
          rw [if_neg (by decide)]
          exact hesc _ ((Untransitioned.refl s).emit .ACTION_EXECUTED _ (by decide))
      · exact hesc s (.refl s)

lemma handlerOk_aiReason (cfg : HermesConfig) (env : Env) (s : ConduitState)
    (hterm : TERMINAL_PHASES.contains s.phase = false) :
    HandlerOk s (phaseAIReason cfg env s) := by
  rw [phaseAIReason]
  cases s.current_dom with
  | none => exact handlerOk_of_fail _ (.refl s) hterm
  | some dom =>
    dsimp only
    simp only [emitSig_prior, emitSig_tick, emitSig_ai_calls, emitSig_phase,
      emitSig_attempts, emitSig_pending, emitSig_current_dom]
    by_cases hprior : s.prior_ai_attempts = []
    · rw [if_pos hprior]
      have hpre : Untransitioned s
          (emitSig {emitSig s .AI_INVOKED (.aiInvoked "navigation_plan" dom.html.length)
            with ai_calls := (emitSig s .AI_INVOKED
              (.aiInvoked "navigation_plan" dom.html.length)).ai_calls + 1}
            .AI_RESPONDED (.aiResponded "navigation_plan"
              (generate_navigation_plan (aiAvail cfg env) none
                (env.aiRawActions s.tick) (env.aiConfidence s.tick)).actions.length
              (generate_navigation_plan (aiAvail cfg env) none
                (env.aiRawActions s.tick) (env.aiConfidence s.tick)).confidence)) :=
        (((Untransitioned.refl s).emit .AI_INVOKED _ (by decide)).update
          rfl rfl rfl).emit .AI_RESPONDED _ (by decide)
      split
      · split
        · refine handlerOk_of_transition .NAVIGATE ?_ hterm (by decide)
          exact hpre.update rfl rfl rfl
        · refine handlerOk_of_fail _ ?_ hterm
          exact hpre.update rfl rfl rfl
      · split
        · refine handlerOk_of_fail _ ?_ hterm
          exact (hpre.trans (validateActions_untransitioned cfg _ _)).update rfl rfl rfl
        · refine handlerOk_of_transition .EXECUTE_PLAN ?_ hterm (by decide)
          exact (hpre.trans (validateActions_untransitioned cfg _ _)).update rfl rfl rfl
    · rw [if_neg hprior]
      have hpre : Untransitioned s
          (emitSig {emitSig s .AI_INVOKED (.aiInvoked "navigation_plan" dom.html.length)
            with ai_calls := (emitSig s .AI_INVOKED
              (.aiInvoked "navigation_plan" dom.html.length)).ai_calls + 1}
            .AI_RESPONDED (.aiResponded "navigation_plan"
              (generate_navigation_plan (aiAvail cfg env)
                (some (s.prior_ai_attempts.map .pystr))
                (env.aiRawActions s.tick) (env.aiConfidence s.tick)).actions.length
              (generate_navigation_plan (aiAvail cfg env)
                (some (s.prior_ai_attempts.map .pystr))
                (env.aiRawActions s.tick) (env.aiConfidence s.tick)).confidence)) :=
        (((Untransitioned.refl s).emit .AI_INVOKED _ (by decide)).update
          rfl rfl rfl).emit .AI_RESPONDED _ (by decide)
      split
      · split
        · refine handlerOk_of_transition .NAVIGATE ?_ hterm (by decide)
          exact hpre.update rfl rfl rfl
        · refine handlerOk_of_fail _ ?_ hterm
          exact hpre.update rfl rfl rfl
      · split
        · refine handlerOk_of_fail _ ?_ hterm
          exact (hpre.trans (validateActions_untransitioned cfg _ _)).update rfl rfl rfl
        · refine handlerOk_of_transition .EXECUTE_PLAN ?_ hterm (by decide)
          exact (hpre.trans (validateActions_untransitioned cfg _ _)).update rfl rfl rfl

lemma handlerOk_executePlan (cfg : HermesConfig) (env : Env) (s : ConduitState)
    (hterm : TERMINAL_PHASES.contains s.phase = false) :
    HandlerOk s (phaseExecutePlan cfg env s) := by
  rw [phaseExecutePlan]
  split
  · exact handlerOk_of_transition .ASSESS (.refl s) hterm (by decide)
  · exact handlerOk_of_transition .ASSESS
      ((execLoop_untransitioned (env.browser s.tick) cfg s.pending_plan s).update
        rfl rfl rfl) hterm (by decide)

lemma handlerOk_extract (cfg : HermesConfig) (env : Env) (s : ConduitState)
    (hterm : TERMINAL_PHASES.contains s.phase = false) :
    HandlerOk s (phaseExtract cfg env s) := by
  rw [phaseExtract]
  cases hdom : s.current_dom with
  | some d =>
    dsimp only
    split
    · refine handlerOk_of_transition .VALIDATE ?_ hterm (by decide)
      exact ((Untransitioned.refl s).update rfl rfl rfl).trans
        (extractHeuristic_untransitioned env _)
    · split
      · refine handlerOk_of_transition .VALIDATE ?_ hterm (by decide)
        exact ((Untransitioned.refl s).update rfl rfl rfl).trans
          (extractAI_untransitioned env _)
      · split
        · refine handlerOk_of_transition .VALIDATE ?_ hterm (by decide)
          exact ((Untransitioned.refl s).update rfl rfl rfl).trans
            (extractHybrid_untransitioned cfg env _)
        · split
          · refine handlerOk_of_transition .VALIDATE ?_ hterm (by decide)
            exact ((Untransitioned.refl s).update rfl rfl rfl).trans
              (extractHeuristic_untransitioned env _)
          · split
            · refine handlerOk_of_transition .VALIDATE ?_ hterm (by decide)
              exact ((Untransitioned.refl s).update rfl rfl rfl).trans
                (extractAI_untransitioned env _)
            · exact handlerOk_of_fail _ (.refl s) hterm
  | none =>
    dsimp only
    cases hcap : env.captureDom s.tick with
    | none => exact handlerOk_of_fail _ (.refl s) hterm
    | some d =>
      dsimp only
      split
      · refine handlerOk_of_transition .VALIDATE ?_ hterm (by decide)
        exact ((Untransitioned.refl s).update rfl rfl rfl).trans
          (extractHeuristic_untransitioned env _)
      · split
        · refine handlerOk_of_transition .VALIDATE ?_ hterm (by decide)
          exact ((Untransitioned.refl s).update rfl rfl rfl).trans
            (extractAI_untransitioned env _)
        · split
          · refine handlerOk_of_transition .VALIDATE ?_ hterm (by decide)
            exact ((Untransitioned.refl s).update rfl rfl rfl).trans
              (extractHybrid_untransitioned cfg env _)
          · split
            · refine handlerOk_of_transition .VALIDATE ?_ hterm (by decide)
              exact ((Untransitioned.refl s).update rfl rfl rfl).trans
                (extractHeuristic_untransitioned env _)
            · split
              · refine handlerOk_of_transition .VALIDATE ?_ hterm (by decide)
                exact ((Untransitioned.refl s).update rfl rfl rfl).trans
                  (extractAI_untransitioned env _)
              · exact handlerOk_of_fail _ (.refl s) hterm

lemma handlerOk_validate (cfg : HermesConfig) (env : Env) (s : ConduitState)
    (hterm : TERMINAL_PHASES.contains s.phase = false) :
    HandlerOk s (phaseValidate cfg env s) := by
  rw [phaseValidate]
  dsimp only
  split
  · split
    · split
      · refine handlerOk_of_transition .REPAIR ?_ hterm (by decide)
        exact ((Untransitioned.refl s).update rfl rfl rfl).emit .RETRY_ATTEMPT _
          (by decide)
      · refine handlerOk_of_fail _ ?_ hterm
        exact ((Untransitioned.refl s).update rfl rfl rfl).emit .RETRY_ATTEMPT _
          (by decide)
    · exact handlerOk_of_fail _ (.refl s) hterm
  · split
    · refine handlerOk_of_transition .REPAIR ?_ hterm (by decide)
      exact (Untransitioned.refl s).update rfl rfl rfl
    · refine handlerOk_of_transition .PERSIST ?_ hterm (by decide)
      exact (Untransitioned.refl s).emit .EXTRACTION_COMPLETE _ (by decide)

lemma handlerOk_repair (cfg : HermesConfig) (env : Env) (s : ConduitState)
    (hterm : TERMINAL_PHASES.contains s.phase = false) :
    HandlerOk s (phaseRepair cfg env s) := by
  rw [phaseRepair]
  split
  · exact handlerOk_of_fail _ (.refl s) hterm
  · refine handlerOk_of_transition .VALIDATE ?_ hterm (by decide)
    exact ((((Untransitioned.refl s).emit .AI_INVOKED _ (by decide)).update
      rfl rfl rfl).emit .AI_RESPONDED _ (by decide)).update rfl rfl rfl

lemma handlerOk_persist (env : Env) (s : ConduitState)
    (hph : s.phase = .PERSIST) :
    HandlerOk s (phasePersist env s) := by
  have hterm : TERMINAL_PHASES.contains s.phase = false := by rw [hph]; rfl
  rw [phasePersist]
  cases hp : Pipeline.persist s.pipeline.processed s.fs (env.persistFailAt s.tick) with
  | mk fs' res =>
    cases res with
    | error e =>
      exact handlerOk_of_fail _ ((Untransitioned.refl s).update rfl rfl rfl) hterm
    | ok count =>
      dsimp only
      rw [Conduit.transition, if_pos (by simp [hph]; decide)]
      dsimp only
      refine ⟨by simp, ?_, ?_, ?_, ?_, ?_⟩
      · intro _ _
        refine ⟨s.emitter.sequence + 2, ?_⟩
        simp only [emitSig_signals, emitSig_sequence, emitSig_phase]
        rw [List.getLast?_concat]
      · intro _ hc
        exact absurd rfl hc
      · intro hf
        simp only [emitSig_phase] at hf
        exact absurd hf (by decide)
      · intro _
        refine ⟨[], ⟨s.emitter.sequence + 1, .RUN_COMPLETE, .runComplete count s.ai_calls⟩,
          ⟨s.emitter.sequence + 2, .PHASE_TRANSITION,
            .phaseTransition s.phase .COMPLETE⟩, ?_, by simp, rfl, rfl⟩
        simp [hph]
      · intro h
        exact absurd rfl h

/-- Every handler invoked by the run loop on a non-terminal state obeys the
signal discipline. -/
lemma dispatchHandler_ok (cfg : HermesConfig) (env : Env) (s : ConduitState)
    (hterm : TERMINAL_PHASES.contains s.phase = false) :
    HandlerOk s (dispatchHandler cfg env s) := by
  rw [dispatchHandler]
  cases hph : s.phase
  case INIT =>
    exact handlerOk_of_none (.refl s) hterm
  case NAVIGATE => exact handlerOk_navigate cfg env s hterm
  case ASSESS => exact handlerOk_assess env s hterm
  case OBSTRUCT => exact handlerOk_obstruct cfg env s hterm
  case AI_REASON => exact handlerOk_aiReason cfg env s hterm
  case EXECUTE_PLAN => exact handlerOk_executePlan cfg env s hterm
  case EXTRACT => exact handlerOk_extract cfg env s hterm
  case VALIDATE => exact handlerOk_validate cfg env s hterm
  case REPAIR => exact handlerOk_repair cfg env s hterm
  case PERSIST => exact handlerOk_persist env s hph
  case COMPLETE => rw [hph] at hterm; simp [TERMINAL_PHASES] at hterm
  case FAIL => rw [hph] at hterm; simp [TERMINAL_PHASES] at hterm

/-- The one-iteration analogue of `HandlerOk` for the full loop body
(timeout check, handler, exception-to-`_fail` conversion). -/
structure StepOk (s s' : ConduitState) : Prop where
  changePT : s'.phase ≠ s.phase → s'.phase ≠ .FAIL →
    ∃ n, s'.emitter.signals.getLast? =
      some ⟨n, .PHASE_TRANSITION, .phaseTransition s.phase s'.phase⟩
  cleanMid : s'.phase ≠ .FAIL → s'.phase ≠ .COMPLETE →
    ∃ new, s'.emitter.signals = s.emitter.signals ++ new ∧ ∀ g ∈ new, cleanSig g
  failShape : s'.phase = .FAIL →
    ∃ new rf, s'.emitter.signals = s.emitter.signals ++ new ++ [rf] ∧
      (∀ g ∈ new, cleanSig g) ∧ rf.signal_type = .RUN_FAILED
  completeShape : s'.phase = .COMPLETE →
    ∃ new rc pt, s'.emitter.signals = s.emitter.signals ++ new ++ [rc, pt] ∧
      (∀ g ∈ new, cleanSig g) ∧ rc.signal_type = .RUN_COMPLETE ∧
      pt.signal_type = .PHASE_TRANSITION

/-- One loop iteration from a non-terminal state obeys the discipline. -/
lemma stepConduit_ok (cfg : HermesConfig) (env : Env) (s : ConduitState)
    (hterm : TERMINAL_PHASES.contains s.phase = false) :
    StepOk s (stepConduit cfg env s) := by
  obtain ⟨hnc, hnf⟩ := (not_terminal_iff s.phase).mp hterm
  rw [stepConduit, if_neg (by rw [hterm]; simp)]
  by_cases ht : s.time > cfg.global_timeout_s
  · rw [if_pos ht]
    obtain ⟨hfp, hfsig⟩ := fail_spec s _ (by rw [hterm]; simp)
    refine ⟨?_, ?_, ?_, ?_⟩
    · intro _ hne
      exact absurd hfp hne
    · intro hne _
      exact absurd hfp hne
    · intro _
      exact ⟨[], ⟨s.emitter.sequence + 1, .RUN_FAILED,
        .runFailed "Global timeout exceeded" s.phase s.attempts⟩,
        by rw [hfsig]; simp, by simp, rfl⟩
    · intro hc
      rw [hfp] at hc
      exact absurd hc (by decide)
  · rw [if_neg ht]
    dsimp only
    have hok := dispatchHandler_ok cfg env s hterm
    cases herr : (dispatchHandler cfg env s).2 with
    | none =>
      dsimp only
      refine ⟨?_, ?_, ?_, ?_⟩
      · intro h1 h2
        exact hok.changePT (by simpa using h1) (by simpa using h2)
      · intro h1 h2
        exact hok.cleanMid (by simpa using h1) (by simpa using h2)
      · intro h1
        exact hok.failShape (by simpa using h1)
      · intro h1
        exact hok.completeShape (by simpa using h1)
    | some e =>
      dsimp only
      have hsame := hok.errSame (by rw [herr]; simp)
      have hterm2 : ¬ TERMINAL_PHASES.contains
          (advanceClock env s.tick (dispatchHandler cfg env s).1).phase = true := by
        simp only [advanceClock_phase, hsame, hterm]
        simp
      obtain ⟨hfp, hfsig⟩ := fail_spec (advanceClock env s.tick
        (dispatchHandler cfg env s).1) ("Unhandled exception: " ++ e) hterm2
      obtain ⟨new, hmsig, hmclean⟩ := hok.cleanMid
        (by rw [hsame]; exact hnf) (by rw [hsame]; exact hnc)
      refine ⟨?_, ?_, ?_, ?_⟩
      · intro _ hne
        exact absurd hfp hne
      · intro hne _
        exact absurd hfp hne
      · intro _
        refine ⟨new, ⟨(advanceClock env s.tick
            (dispatchHandler cfg env s).1).emitter.sequence + 1, .RUN_FAILED,
          .runFailed ("Unhandled exception: " ++ e)
            (advanceClock env s.tick (dispatchHandler cfg env s).1).phase
            (advanceClock env s.tick (dispatchHandler cfg env s).1).attempts⟩,
          ?_, hmclean, rfl⟩
        rw [hfsig]
        simp only [advanceClock_signals]
        rw [hmsig, List.append_assoc]
      · intro hc
        rw [hfp] at hc
        exact absurd hc (by decide)

/-- One non-terminal, non-timed-out iteration advances the clock by exactly
the environment's `dt`. -/
lemma stepConduit_time (cfg : HermesConfig) (env : Env) (s : ConduitState)
    (hterm : TERMINAL_PHASES.contains s.phase = false)
    (ht : ¬ s.time > cfg.global_timeout_s) :
    (stepConduit cfg env s).time = s.time + env.dt s.tick := by
  rw [stepConduit, if_neg (by rw [hterm]; simp), if_neg ht]
  dsimp only
  have hok := dispatchHandler_ok cfg env s hterm
  cases herr : (dispatchHandler cfg env s).2 with
  | none =>
    dsimp only
    simp [advanceClock, hok.timeSame]
  | some e =>
    dsimp only
    rw [fail_time]
    simp [advanceClock, hok.timeSame]

/-- C3 (amended): in every run-loop iteration from a non-terminal state, a
phase change to any phase other than FAIL goes through `_transition` and
therefore leaves, as the last signal, the `PHASE_TRANSITION` carrying exactly
that from-phase and to-phase; the change into FAIL instead leaves a
`RUN_FAILED` as the last signal (it is performed directly by `_fail`, not by
`_transition`). -/
theorem phase_change_discipline (cfg : HermesConfig) (env : Env) (s : ConduitState)
    (hterm : TERMINAL_PHASES.contains s.phase = false) :
    ((stepConduit cfg env s).phase ≠ s.phase → (stepConduit cfg env s).phase ≠ .FAIL →
      ∃ n, (stepConduit cfg env s).emitter.signals.getLast? =
        some ⟨n, .PHASE_TRANSITION,
          .phaseTransition s.phase (stepConduit cfg env s).phase⟩) ∧
    ((stepConduit cfg env s).phase = .FAIL →
      ∃ g, (stepConduit cfg env s).emitter.signals.getLast? = some g ∧
        g.signal_type = .RUN_FAILED) := by
  have h := stepConduit_ok cfg env s hterm
  refine ⟨h.changePT, ?_⟩
  intro hf
  obtain ⟨new, rf, hsig, -, hrf⟩ := h.failShape hf
  exact ⟨rf, by rw [hsig, List.getLast?_concat], hrf⟩

/-- Environment for the C3 witness: defaults (navigation succeeds). -/
def c3wenv : Env := {}

/-- State for the C3 witness: mid-run, in NAVIGATE. -/
def c3wstate : ConduitState := { phase := .NAVIGATE }

/-- Witness for C3 (amended): stepping the NAVIGATE state under a succeeding
browser changes the phase and indeed leaves the matching `PHASE_TRANSITION`
as the last signal. -/
theorem phase_change_discipline_witness :
    TERMINAL_PHASES.contains c3wstate.phase = false ∧
    (((stepConduit c3cfg c3wenv c3wstate).phase ≠ c3wstate.phase →
        (stepConduit c3cfg c3wenv c3wstate).phase ≠ .FAIL →
      ∃ n, (stepConduit c3cfg c3wenv c3wstate).emitter.signals.getLast? =
        some ⟨n, .PHASE_TRANSITION,
          .phaseTransition c3wstate.phase (stepConduit c3cfg c3wenv c3wstate).phase⟩) ∧
    ((stepConduit c3cfg c3wenv c3wstate).phase = .FAIL →
      ∃ g, (stepConduit c3cfg c3wenv c3wstate).emitter.signals.getLast? = some g ∧
        g.signal_type = .RUN_FAILED)) :=
  ⟨by decide, phase_change_discipline c3cfg c3wenv c3wstate (by decide)⟩

/-! ## Run-level invariant and termination (C9) -/

/-- Is the signal a `RUN_COMPLETE` or `RUN_FAILED`? -/
def isTerminalSig (g : Signal) : Bool :=
  g.signal_type = .RUN_COMPLETE ∨ g.signal_type = .RUN_FAILED

/-- Is the signal something other than a `PHASE_TRANSITION`? -/
def nonPTSig (g : Signal) : Bool :=
  g.signal_type ≠ .PHASE_TRANSITION

/-- The run invariant: before a terminal phase no terminal signal has been
emitted; in FAIL the ledger is clean signals followed by one `RUN_FAILED`;
in COMPLETE it is clean signals followed by `RUN_COMPLETE` and the final
`PHASE_TRANSITION`. -/
def Inv (s : ConduitState) : Prop :=
  (TERMINAL_PHASES.contains s.phase = false →
    ∀ g ∈ s.emitter.signals, cleanSig g) ∧
  (s.phase = .FAIL → ∃ pre rf, s.emitter.signals = pre ++ [rf] ∧
    (∀ g ∈ pre, cleanSig g) ∧ rf.signal_type = .RUN_FAILED) ∧
  (s.phase = .COMPLETE → ∃ pre rc pt, s.emitter.signals = pre ++ [rc, pt] ∧
    (∀ g ∈ pre, cleanSig g) ∧ rc.signal_type = .RUN_COMPLETE ∧
    pt.signal_type = .PHASE_TRANSITION)

lemma stepConduit_terminal (cfg : HermesConfig) (env : Env) (s : ConduitState)
    (h : TERMINAL_PHASES.contains s.phase = true) :
    stepConduit cfg env s = s := by
  rw [stepConduit, if_pos h]

lemma inv_step (cfg : HermesConfig) (env : Env) (s : ConduitState) (h : Inv s) :
    Inv (stepConduit cfg env s) := by
  by_cases hterm : TERMINAL_PHASES.contains s.phase = true
  · rw [stepConduit_terminal cfg env s hterm]
    exact h
  · have hterm' : TERMINAL_PHASES.contains s.phase = false := by simpa using hterm
    have hso := stepConduit_ok cfg env s hterm'
    have hclean := h.1 hterm'
    refine ⟨?_, ?_, ?_⟩
    · intro hterm2 g hg
      obtain ⟨hnc, hnf⟩ := (not_terminal_iff _).mp hterm2
      obtain ⟨new, hsig, hnew⟩ := hso.cleanMid hnf hnc
      rw [hsig] at hg
      rcases List.mem_append.mp hg with hg | hg
      · exact hclean g hg
      · exact hnew g hg
    · intro hf
      obtain ⟨new, rf, hsig, hnew, hrf⟩ := hso.failShape hf
      refine ⟨s.emitter.signals ++ new, rf, by rw [hsig], ?_, hrf⟩
      intro g hg
      rcases List.mem_append.mp hg with hg | hg
      · exact hclean g hg
      · exact hnew g hg
    · intro hc
      obtain ⟨new, rc, pt, hsig, hnew, hrc, hpt⟩ := hso.completeShape hc
      refine ⟨s.emitter.signals ++ new, rc, pt, by rw [hsig], ?_, hrc, hpt⟩
      intro g hg
      rcases List.mem_append.mp hg with hg | hg
      · exact hclean g hg
      · exact hnew g hg

lemma runLoop_terminal (cfg : HermesConfig) (env : Env) (fuel : Nat)
    (s : ConduitState) (h : TERMINAL_PHASES.contains s.phase = true) :
    runLoop cfg env fuel s = s := by
  cases fuel with
  | zero => rfl
  | succ n => rw [runLoop, if_pos h]

lemma inv_runLoop (cfg : HermesConfig) (env : Env) :
    ∀ (fuel : Nat) (s : ConduitState), Inv s → Inv (runLoop cfg env fuel s) := by
  intro fuel
  induction fuel with
  | zero => intro s h; exact h
  | succ n ih =>
    intro s h
    rw [runLoop]
    split
    · exact h
    · exact ih _ (inv_step cfg env s h)

/-- With at least one unit of wall time per iteration, the run loop reaches
a terminal phase within `global_timeout + 2` iterations. -/
lemma runLoop_reaches_terminal (cfg : HermesConfig) (env : Env)
    (hdt : ∀ n, 1 ≤ env.dt n) :
    ∀ (fuel : Nat) (s : ConduitState),
      cfg.global_timeout_s + 2 ≤ fuel + s.time → 1 ≤ fuel →
      TERMINAL_PHASES.contains (runLoop cfg env fuel s).phase = true := by
  intro fuel
  induction fuel with
  | zero => intro s h1 h2; omega
  | succ n ih =>
    intro s h1 h2
    rw [runLoop]
    by_cases hterm : TERMINAL_PHASES.contains s.phase = true
    · rw [if_pos hterm]
      exact hterm
    · rw [if_neg hterm]
      have hterm' : TERMINAL_PHASES.contains s.phase = false := by simpa using hterm
      by_cases ht : s.time > cfg.global_timeout_s
      · have hstep : stepConduit cfg env s = Conduit.fail s "Global timeout exceeded" := by
          rw [stepConduit, if_neg (by rw [hterm']; simp), if_pos ht]
        have htermF : TERMINAL_PHASES.contains (stepConduit cfg env s).phase = true := by
          rw [hstep, (fail_spec s _ (by rw [hterm']; simp)).1]
          rfl
        rw [runLoop_terminal cfg env n _ htermF]
        exact htermF
      · by_cases hterm2 : TERMINAL_PHASES.contains (stepConduit cfg env s).phase = true
        · rw [runLoop_terminal cfg env n _ hterm2]
          exact hterm2
        · have htime := stepConduit_time cfg env s hterm' ht
          have hd := hdt s.tick
          exact ih (stepConduit cfg env s) (by omega) (by omega)

/-- `_phase_init` does not consume modelled wall time. -/
lemma phaseInit_time (env : Env) : (phaseInit env initialState).time = 0 := by
  rw [phaseInit]
  cases env.browserStartFails with
  | some e => rw [fail_time]; rfl
  | none =>
    rw [Conduit.transition, if_pos (by rfl)]
    rfl

/-- The invariant holds right after INIT. -/
lemma inv_start (env : Env) : Inv (phaseInit env initialState) := by
  rw [phaseInit]
  cases env.browserStartFails with
  | some e =>
    have hterm : ¬ TERMINAL_PHASES.contains initialState.phase = true := by decide
    obtain ⟨hfp, hfsig⟩ := fail_spec initialState ("Initialization failed: " ++ e) hterm
    refine ⟨?_, ?_, ?_⟩
    · intro h2
      rw [hfp] at h2
      simp [TERMINAL_PHASES] at h2
    · intro _
      exact ⟨[], ⟨1, .RUN_FAILED, .runFailed ("Initialization failed: " ++ e)
        .INIT 0⟩, by rw [hfsig]; rfl, by simp, rfl⟩
    · intro hc
      rw [hfp] at hc
      exact absurd hc (by decide)
  | none =>
    rw [Conduit.transition, if_pos (by rfl)]
    dsimp only
    refine ⟨?_, ?_, ?_⟩
    · intro _ g hg
      have : g = ⟨1, .PHASE_TRANSITION, .phaseTransition .INIT .NAVIGATE⟩ := by
        simpa [initialState, SignalEmitter.init] using hg
      rw [this]
      exact ⟨by decide, by decide⟩
    · intro hf
      simp only [emitSig_phase] at hf
      exact absurd hf (by decide)
    · intro hc
      simp only [emitSig_phase] at hc
      exact absurd hc (by decide)

/-- Terminality means COMPLETE or FAIL. -/
lemma terminal_cases (p : Phase) (h : TERMINAL_PHASES.contains p = true) :
    p = .COMPLETE ∨ p = .FAIL := by
  cases p <;> revert h <;> decide

/-- C9: provided each loop iteration consumes at least one unit of wall time
and the fuel covers the global timeout, every run of `Conduit.run` ends in a
terminal phase (COMPLETE or FAIL), emits exactly one signal of type
`RUN_COMPLETE` or `RUN_FAILED` over the whole run, and that signal is the
last signal of the run whose type is not `PHASE_TRANSITION` (and matches the
terminal phase). -/
theorem run_terminates_once (cfg : HermesConfig) (env : Env) (fuel : Nat)
    (hdt : ∀ n, 1 ≤ env.dt n) (hfuel : cfg.global_timeout_s + 2 ≤ fuel) :
    TERMINAL_PHASES.contains (conduitRun cfg env fuel).phase = true ∧
    ((conduitRun cfg env fuel).emitter.signals.filter isTerminalSig).length = 1 ∧
    ∃ g, ((conduitRun cfg env fuel).emitter.signals.filter nonPTSig).getLast? = some g ∧
      (((conduitRun cfg env fuel).phase = .COMPLETE ∧ g.signal_type = .RUN_COMPLETE) ∨
       ((conduitRun cfg env fuel).phase = .FAIL ∧ g.signal_type = .RUN_FAILED)) := by
  have hterm : TERMINAL_PHASES.contains (conduitRun cfg env fuel).phase = true := by
    rw [conduitRun]
    apply runLoop_reaches_terminal cfg env hdt
    · rw [phaseInit_time]; omega
    · omega
  have hinv : Inv (conduitRun cfg env fuel) :=
    inv_runLoop cfg env fuel _ (inv_start env)
  refine ⟨hterm, ?_⟩
  rcases terminal_cases _ hterm with hc | hf
  · obtain ⟨pre, rc, pt, hsig, hpre, hrc, hpt⟩ := hinv.2.2 hc
    have hfil : pre.filter isTerminalSig = [] := List.filter_eq_nil_iff.mpr (fun g hg => by
      obtain ⟨h1, h2⟩ := hpre g hg
      simp [isTerminalSig, h1, h2])
    constructor
    · rw [hsig, List.filter_append, hfil]
      simp [List.filter, isTerminalSig, hrc, hpt]
    · refine ⟨rc, ?_, Or.inl ⟨hc, hrc⟩⟩
      rw [hsig, List.filter_append]
      have h2 : [rc, pt].filter nonPTSig = [rc] := by
        simp [List.filter, nonPTSig, hrc, hpt]
      rw [h2, List.getLast?_concat]
  · obtain ⟨pre, rf, hsig, hpre, hrf⟩ := hinv.2.1 hf
    have hfil : pre.filter isTerminalSig = [] := List.filter_eq_nil_iff.mpr (fun g hg => by
      obtain ⟨h1, h2⟩ := hpre g hg
      simp [isTerminalSig, h1, h2])
    constructor
    · rw [hsig, List.filter_append, hfil]
      simp [List.filter, isTerminalSig, hrf]
    · refine ⟨rf, ?_, Or.inr ⟨hf, hrf⟩⟩
      rw [hsig, List.filter_append]
      have h2 : [rf].filter nonPTSig = [rf] := by
        simp [List.filter, nonPTSig, hrf]
      rw [h2, List.getLast?_concat]

/-- Config for the C9 witness: a 5-second global timeout. -/
def c9wcfg : HermesConfig := { target_url := "https://example.com", global_timeout_s := 5 }

/-- Environment for the C9 witness: defaults — navigation succeeds, DOM
capture fails, every iteration takes one time unit. -/
def c9wenv : Env := {}

/-- Witness for C9: the default-environment run (DOM capture fails at
ASSESS) terminates, emits exactly one terminal signal, and its last
non-`PHASE_TRANSITION` signal matches the terminal phase. -/
theorem run_terminates_once_witness :
    TERMINAL_PHASES.contains (conduitRun c9wcfg c9wenv 7).phase = true ∧
    ((conduitRun c9wcfg c9wenv 7).emitter.signals.filter isTerminalSig).length = 1 ∧
    ∃ g, ((conduitRun c9wcfg c9wenv 7).emitter.signals.filter nonPTSig).getLast? = some g ∧
      (((conduitRun c9wcfg c9wenv 7).phase = .COMPLETE ∧ g.signal_type = .RUN_COMPLETE) ∨
       ((conduitRun c9wcfg c9wenv 7).phase = .FAIL ∧ g.signal_type = .RUN_FAILED)) :=
  run_terminates_once c9wcfg c9wenv 7 (fun _ => le_refl 1) (by decide)

end Hermes
